import Mathlib

/-!
Verification of the RDS/VMA monitor event pipeline.

The definitions below are a shallow embedding of the repository sources:

* `rds_detector.py`  — the `RDSEventDetector` class (edge detection on TA and
  PTY, the dual filter, the emergency watchdog, event triggering);
* `audio_recorder.py` — the `AudioRecorder` class (circular pre-roll buffer,
  recording start/stop, the sox subprocess modelled as a byte sink);
* `rds_logger.py`    — the `AudioController` and the end-event handling of
  `RDSLogger` (STOP command, artifact deletion, transcription hand-off);
* `config.py`        — the constants the above import.

Wall-clock time (`datetime.now()`) is modelled by an explicit integer
timestamp (in milliseconds) passed to every step; `threading.Timer` is modelled by storing the
expiry instant of the armed watchdog in the state and firing it from a driver
whenever the stream time passes the expiry.  Python dictionaries holding RDS
fields are modelled as functions `String → Option RVal`, and an incoming
snapshot as an association list.
-/

namespace RdsVma

/-- A JSON-ish value stored in an RDS snapshot dictionary.  `vNull` is an
explicit JSON `null` (distinct from an absent key). -/
inductive RVal where
  | vNull : RVal
  | vBool (b : Bool) : RVal
  | vInt (n : Int) : RVal
  | vStr (s : String) : RVal
deriving DecidableEq, Repr

/-- An incoming RDS snapshot: the key/value pairs of the parsed line. -/
abbrev Snap := List (String × RVal)

/-- The detector state dictionaries (`previous_state` / `current_state`). -/
abbrev Dict := String → Option RVal

/-- Python `dict.update`: keys supplied by the snapshot overwrite, all other
keys keep their previous value. -/
def updateDict (st : Dict) (snap : Snap) : Dict :=
  fun k =>
    match snap.lookup k with
    | some v => some v
    | none => st k

/-! ### Constants from `config.py`

The model clock counts integer milliseconds (Python `datetime` instants and
`total_seconds()` differences are real-valued; a fixed sub-second integer
grid represents them exactly for every threshold below).  Each `*_SECONDS`
constant therefore carries its `config.py` value multiplied by 1000. -/

/-- `EVENT_TIMEOUT_SECONDS = 0.5` — the debounce window (0.5 s = 500 ms). -/
def EVENT_TIMEOUT_SECONDS : Int := 500

/-- `MIN_EVENT_DURATION_SECONDS = 15` — minimum traffic event duration
(15 s = 15000 ms). -/
def MIN_EVENT_DURATION_SECONDS : Int := 15000

/-- Modelled from the spec: `MIN_VMA_DURATION_SECONDS` is imported by
`rds_detector.py` but is not defined in the `config.py` present in the
sources; the detector documentation fixes the VMA minimum duration at
10 seconds ("Events must be ≥15 seconds (Traffic) or ≥10 seconds (VMA)"),
10 s = 10000 ms. -/
def MIN_VMA_DURATION_SECONDS : Int := 10000

/-- `self.max_rds_gap_seconds = 30` (30 s = 30000 ms). -/
def max_rds_gap_seconds : Int := 30000

/-- `self.max_traffic_duration_seconds = 600` (600 s = 600000 ms). -/
def max_traffic_duration_seconds : Int := 600000

/-! ### Event types (`EventType` enum in `rds_detector.py`) -/

inductive EventType where
  | traffic_start
  | traffic_end
  | traffic_timeout
  | vma_start
  | vma_end
  | vma_test_start
  | vma_test_end
  | program_change
deriving DecidableEq, Repr

/-- The `.value` string of the Python enum member. -/
def EventType.value : EventType → String
  | .traffic_start => "traffic_start"
  | .traffic_end => "traffic_end"
  | .traffic_timeout => "traffic_timeout"
  | .vma_start => "vma_start"
  | .vma_end => "vma_end"
  | .vma_test_start => "vma_test_start"
  | .vma_test_end => "vma_test_end"
  | .program_change => "program_change"

/-- `is_start_event`: the enum value ends with `_start`. -/
def is_start_event (e : EventType) : Bool :=
  ("_start".toList).isSuffixOf (e.value.toList)

/-- `is_end_event`: the enum value ends with `_end`, or the event is the
emergency timeout. -/
def is_end_event (e : EventType) : Bool :=
  ("_end".toList).isSuffixOf (e.value.toList) || e == EventType.traffic_timeout

/-- `is_vma_event`: the string `vma` occurs in the enum value. -/
def is_vma_event (e : EventType) : Bool :=
  decide (List.IsInfix ("vma".toList) (e.value.toList))

/-- The classification an episode is tracked under
(`self.current_event_type`, a string that is always `traffic` or `vma`). -/
inductive Classification where
  | traffic
  | vma
deriving DecidableEq, Repr

/-- The per-classification duration threshold chosen in
`_handle_traffic_end` (`'vma' in current_event_type` selects the VMA one). -/
def minDurationOf : Classification → Int
  | .traffic => MIN_EVENT_DURATION_SECONDS
  | .vma => MIN_VMA_DURATION_SECONDS

/-- A reason attached to a filtered event (the formatted reason strings of the
source are abstracted to their data content). -/
inductive FilterReason where
  | durationTooShort (dur min : Int)
  | rdsGaps (maxGap : Int)
  | emergencyTimeout (maxDur : Int)
deriving DecidableEq, Repr

/-- An emitted event with the claim-relevant parts of its `event_data` dict.
Absent keys default exactly as `event_data.get('filtered', False)` does. -/
structure Event where
  etype : EventType
  event_time : Int
  filtered : Bool := false
  filter_reasons : List FilterReason := []
  duration_seconds : Option Int := none
deriving DecidableEq, Repr

/-! ### Detector state (the fields of `RDSEventDetector`) -/

structure DetState where
  previous_state : Dict
  current_state : Dict
  last_event_time : Option Int
  last_valid_ta_state : Option Bool
  current_traffic_start_time : Option Int
  current_event_type : Classification
  rds_timestamps_during_event : List Int
  /-- The expiry instant of the armed `threading.Timer`, `none` when no timer
  is armed (cancelling is modelled by clearing or overwriting this field). -/
  timeout_timer : Option Int
  events_detected : Nat
  emergency_stops : Nat
  timeout_events : Nat
  filtered_events : Nat
  duration_filtered : Nat
  continuity_filtered : Nat

/-- The freshly constructed detector (`__init__`). -/
def initState : DetState where
  previous_state := fun _ => none
  current_state := fun _ => none
  last_event_time := none
  last_valid_ta_state := none
  current_traffic_start_time := none
  current_event_type := .traffic
  rds_timestamps_during_event := []
  timeout_timer := none
  events_detected := 0
  emergency_stops := 0
  timeout_events := 0
  filtered_events := 0
  duration_filtered := 0
  continuity_filtered := 0

/-- `current_pty in [30, 31]` for an optional dictionary value. -/
def isVmaPty (v : Option RVal) : Bool :=
  v == some (RVal.vInt 30) || v == some (RVal.vInt 31)

/-- The debounce test of `_trigger_event`:
`self.last_event_time and now - self.last_event_time < self.event_timeout`. -/
def debouncedAt (s : DetState) (now : Int) : Bool :=
  match s.last_event_time with
  | some t => decide (now - t < EVENT_TIMEOUT_SECONDS)
  | none => false

/-- `_trigger_event`: critical events (forced, VMA, End) always go through;
other events are suppressed inside the debounce window.  Returns the new
state and the list of events actually emitted (empty when suppressed). -/
def trigger_event (s : DetState) (now : Int) (ev : Event) (force : Bool) :
    DetState × List Event :=
  if !(force || is_vma_event ev.etype || is_end_event ev.etype)
      && debouncedAt s now then
    (s, [])
  else
    ({ s with last_event_time := some now,
              events_detected := s.events_detected + 1 },
     [{ ev with event_time := now }])

/-- `_start_emergency_timer`: cancel any armed timer and arm a fresh one
expiring `max_traffic_duration_seconds` from now. -/
def start_emergency_timer (s : DetState) (now : Int) : DetState :=
  { s with timeout_timer := some (now + max_traffic_duration_seconds) }

/-- `_handle_traffic_start`: suppressed entirely when the current PTY is in
the VMA set; otherwise opens the episode, arms the emergency timer and
triggers a (non-forced) `TRAFFIC_START`. -/
def handle_traffic_start (s : DetState) (now : Int) : DetState × List Event :=
  if isVmaPty (s.current_state "pty") then
    (s, [])
  else
    let cls : Classification :=
      if isVmaPty (s.current_state "pty") then .vma else .traffic
    let s1 := start_emergency_timer
      { s with current_traffic_start_time := some now,
               rds_timestamps_during_event := [now],
               current_event_type := cls } now
    trigger_event s1 now { etype := .traffic_start, event_time := now } false

/-- `_emergency_timeout`: force-emits a synthetic `TRAFFIC_TIMEOUT` with
`filtered = true` and resets the episode state. -/
def emergency_timeout (s : DetState) (now : Int) : DetState × List Event :=
  let s1 := { s with emergency_stops := s.emergency_stops + 1,
                     timeout_events := s.timeout_events + 1 }
  let r := trigger_event s1 now
    { etype := .traffic_timeout,
      event_time := now,
      filtered := true,
      filter_reasons := [.emergencyTimeout max_traffic_duration_seconds],
      duration_seconds := some max_traffic_duration_seconds } true
  ({ r.1 with current_traffic_start_time := none,
              rds_timestamps_during_event := [],
              timeout_timer := none,
              current_event_type := .traffic }, r.2)

/-- Gaps between consecutive recorded snapshot arrival times. -/
def consecutiveGaps : List Int → List Int
  | a :: b :: rest => (b - a) :: consecutiveGaps (b :: rest)
  | _ => []

/-- `_check_rds_continuity`: fails with fewer than two data points, otherwise
passes iff no consecutive gap exceeds `max_rds_gap_seconds`. -/
def check_rds_continuity (ts : List Int) : Bool :=
  if ts.length < 2 then
    false
  else
    (consecutiveGaps ts).all (fun g => decide (g ≤ max_rds_gap_seconds))

/-- `_handle_traffic_end`: cancels the timer; when an episode is open,
evaluates the duration and continuity filters and force-emits a
`TRAFFIC_END` (filtered or not); always resets the episode state.  When no
episode is open, nothing is emitted. -/
def handle_traffic_end (s : DetState) (now : Int) : DetState × List Event :=
  let s0 := { s with timeout_timer := none }
  match s.current_traffic_start_time with
  | none =>
      ({ s0 with current_traffic_start_time := none,
                 rds_timestamps_during_event := [],
                 current_event_type := .traffic }, [])
  | some t0 =>
      let dur := now - t0
      let minDur := minDurationOf s.current_event_type
      let durFail := decide (dur < minDur)
      let contOk := check_rds_continuity s.rds_timestamps_during_event
      let reasons : List FilterReason :=
        (if durFail then [.durationTooShort dur minDur] else []) ++
        (if !contOk then [.rdsGaps max_rds_gap_seconds] else [])
      let s1 := { s0 with
        duration_filtered := s0.duration_filtered + (if durFail then 1 else 0),
        continuity_filtered :=
          s0.continuity_filtered + (if !contOk then 1 else 0) }
      let shouldFilter := !(reasons == [])
      let s2 := { s1 with
        filtered_events := s1.filtered_events + (if shouldFilter then 1 else 0) }
      let r := trigger_event s2 now
        { etype := .traffic_end,
          event_time := now,
          filtered := shouldFilter,
          filter_reasons := reasons,
          duration_seconds := some dur } true
      ({ r.1 with current_traffic_start_time := none,
                  rds_timestamps_during_event := [],
                  current_event_type := .traffic }, r.2)

/-- `_detect_traffic_events`: null and non-boolean TA values are skipped
without touching `last_valid_ta_state`; the first valid boolean only seeds
it; a genuine change runs the start/end handler and then records the new
valid state. -/
def detect_traffic_events (s : DetState) (now : Int) : DetState × List Event :=
  match s.current_state "ta" with
  | none => (s, [])
  | some RVal.vNull => (s, [])
  | some (RVal.vInt _) => (s, [])
  | some (RVal.vStr _) => (s, [])
  | some (RVal.vBool b) =>
      match s.last_valid_ta_state with
      | none => ({ s with last_valid_ta_state := some b }, [])
      | some prev =>
          if prev != b then
            let r := if b then handle_traffic_start s now
                     else handle_traffic_end s now
            ({ r.1 with last_valid_ta_state := some b }, r.2)
          else
            (s, [])

/-- `_detect_vma_events`: a null current PTY is skipped; entering the VMA set
emits the matching start, leaving it the matching end, both forced. -/
def detect_vma_events (s : DetState) (now : Int) : DetState × List Event :=
  let prevPty := s.previous_state "pty"
  let currPty := s.current_state "pty"
  if currPty == none || currPty == some RVal.vNull then
    (s, [])
  else if isVmaPty currPty && !isVmaPty prevPty then
    let et := if currPty == some (RVal.vInt 30)
              then EventType.vma_test_start else EventType.vma_start
    trigger_event s now { etype := et, event_time := now } true
  else if isVmaPty prevPty && !isVmaPty currPty then
    let et := if prevPty == some (RVal.vInt 30)
              then EventType.vma_test_end else EventType.vma_end
    trigger_event s now { etype := et, event_time := now } true
  else
    (s, [])

/-- Python truthiness of an optional dictionary value
(`if prev_pi and curr_pi`). -/
def truthy : Option RVal → Bool
  | none => false
  | some RVal.vNull => false
  | some (RVal.vBool b) => b
  | some (RVal.vInt n) => !(n == 0)
  | some (RVal.vStr s) => !(s == "")

/-- `_detect_program_changes`: informational PI change, not forced. -/
def detect_program_changes (s : DetState) (now : Int) : DetState × List Event :=
  let p := s.previous_state "pi"
  let c := s.current_state "pi"
  if truthy p && truthy c && p != c then
    trigger_event s now { etype := .program_change, event_time := now } false
  else
    (s, [])

/-- The state-dictionary merge at the top of `process_rds_data`:
`previous_state = current_state.copy()` then `current_state.update(rds_data)`. -/
def mergedState (s : DetState) (snap : Snap) : DetState :=
  { s with previous_state := s.current_state,
           current_state := updateDict s.current_state snap }

/-- The continuity bookkeeping of `process_rds_data`: while an episode is
open, append the arrival time of this snapshot. -/
def recordTimestamps (s : DetState) (now : Int) : DetState :=
  if s.current_traffic_start_time.isSome then
    { s with rds_timestamps_during_event :=
        s.rds_timestamps_during_event ++ [now] }
  else s

/-- `process_rds_data`: merges the snapshot into the current state, records
the arrival time while an episode is open, then runs the three detectors. -/
def process_rds_data (s : DetState) (now : Int) (snap : Snap) :
    DetState × List Event :=
  if snap = [] then
    (s, [])
  else
    let s1 := recordTimestamps (mergedState s snap) now
    let r1 := detect_traffic_events s1 now
    let r2 := detect_vma_events r1.1 now
    let r3 := detect_program_changes r2.1 now
    (r3.1, r1.2 ++ r2.2 ++ r3.2)

/-! ### Driver: real time and the watchdog thread

`threading.Timer` fires its callback once the armed delay elapses.  The
driver below replays a timed snapshot stream; before each snapshot (and once
at the very end) it fires the watchdog if stream time has passed its
expiry, which is exactly the observable interleaving in the absence of a
race between the timer thread and the main loop. -/

def fire_timer_if_due (s : DetState) (now : Int) : DetState × List Event :=
  match s.timeout_timer with
  | some expiry =>
      if expiry ≤ now then emergency_timeout s expiry else (s, [])
  | none => (s, [])

/-- One driver step: pending watchdog expiry first, then the snapshot. -/
def stepInput (s : DetState) (inp : Int × Snap) : DetState × List Event :=
  let r1 := fire_timer_if_due s inp.1
  let r2 := process_rds_data r1.1 inp.1 inp.2
  (r2.1, r1.2 ++ r2.2)

/-- Replay a timed snapshot stream. -/
def runDetector (s : DetState) : List (Int × Snap) → DetState × List Event
  | [] => (s, [])
  | inp :: rest =>
      let r1 := stepInput s inp
      let r2 := runDetector r1.1 rest
      (r2.1, r1.2 ++ r2.2)

/-- Replay a stream and then let wall-clock time advance to `T`. -/
def runAndFlush (inputs : List (Int × Snap)) (T : Int) : DetState × List Event :=
  let r := runDetector initState inputs
  let rf := fire_timer_if_due r.1 T
  (rf.1, r.2 ++ rf.2)

/-! ### Audio capture pipeline (`audio_recorder.py`)

The live byte stream is modelled as lists of bytes (`Nat` stands for one
byte); the sox subprocess is modelled by the list of bytes written to its
stdin, `none` when no subprocess handle is held. -/

/-- `INPUT_SAMPLE_RATE = 171000` (`config.py`). -/
def INPUT_SAMPLE_RATE : Nat := 171000

/-- `PRE_TRIGGER_BUFFER_SECONDS = 1` (`config.py`). -/
def PRE_TRIGGER_BUFFER_SECONDS : Nat := 1

/-- `self.buffer_size = self.sample_rate * buffer_seconds * 2` — two bytes
per 16-bit sample. -/
def buffer_size : Nat := INPUT_SAMPLE_RATE * PRE_TRIGGER_BUFFER_SECONDS * 2

/-- The last `n` elements of a list (the retained content of a
`deque(maxlen=n)` after appends). -/
def takeLast (n : Nat) (l : List α) : List α := l.drop (l.length - n)

/-- The state of `AudioRecorder`. -/
structure RecState where
  audio_buffer : List Nat
  is_recording : Bool
  current_recording_file : Option String
  /-- Bytes written so far to the stdin of the active sox subprocess;
  `none` when `self.recording_process` is `None`. -/
  recording_process : Option (List Nat)
  bytes_processed : Nat
  recordings_started : Nat
deriving DecidableEq, Repr

/-- A freshly constructed `AudioRecorder`. -/
def recInit : RecState where
  audio_buffer := []
  is_recording := false
  current_recording_file := none
  recording_process := none
  bytes_processed := 0
  recordings_started := 0

/-- Observable actions of the recorder, for stating the no-op claims. -/
inductive RecAction where
  | spawned
  | warnedAlreadyRecording
  | warnedNotRecording
  | spawnError
deriving DecidableEq, Repr

/-- One iteration of `_audio_processing_loop` on a nonempty chunk: append to
the circular buffer (oldest bytes evicted at capacity) and, while recording,
forward the chunk to the subprocess stdin. -/
def ingest_chunk (st : RecState) (chunk : List Nat) : RecState :=
  let st1 := { st with
    audio_buffer := takeLast buffer_size (st.audio_buffer ++ chunk),
    bytes_processed := st.bytes_processed + chunk.length }
  if st1.is_recording then
    match st1.recording_process with
    | some sink => { st1 with recording_process := some (sink ++ chunk) }
    | none => st1
  else
    st1

/-- Replay a whole sequence of live chunks through the ingestion loop. -/
def ingestAll (st : RecState) (chunks : List (List Nat)) : RecState :=
  chunks.foldl ingest_chunk st

/-- Path helper `get_audio_filename` from `config.py`; `AUDIO_DIR` stands for
the configured audio directory. -/
def AUDIO_DIR : String := "logs/audio"

def get_audio_filename (event_type timestamp : String) : String :=
  AUDIO_DIR ++ "/audio_" ++ event_type ++ "_" ++ timestamp ++ ".wav"

/-- `_start_recording_internal`.  `spawn_ok = false` models the `except`
branch: `subprocess.Popen` (or the pre-roll write) raising, after which
`self.recording_process` is set back to `None`.  On success the entire
current buffer is written to the subprocess stdin before any live chunk. -/
def start_recording_internal (st : RecState) (event_type timestamp : String)
    (spawn_ok : Bool) : RecState × List RecAction :=
  if st.is_recording then
    (st, [.warnedAlreadyRecording])
  else
    let file := get_audio_filename event_type timestamp
    let st1 := { st with current_recording_file := some file }
    if spawn_ok then
      ({ st1 with recording_process := some st.audio_buffer,
                  is_recording := true,
                  recordings_started := st.recordings_started + 1 },
       [.spawned])
    else
      ({ st1 with recording_process := none }, [.spawnError])

/-- `_stop_recording_internal` (exception-free path): closing stdin, waiting
for sox and clearing the recording fields. -/
def stop_recording_internal (st : RecState) : RecState × List RecAction :=
  if !st.is_recording then
    (st, [.warnedNotRecording])
  else
    ({ st with recording_process := none,
               is_recording := false,
               current_recording_file := none }, [])

/-! ### Controller (`AudioController` and the end handling of `RDSLogger`)

The filesystem is modelled as a list of `(path, creation time)` pairs in
directory-listing order. -/

abbrev FileSys := List (String × Int)

def fsExists (fs : FileSys) (p : String) : Bool :=
  fs.any (fun f => f.1 == p)

/-- `os.remove`: drop the entry for the given path. -/
def fsRemove (fs : FileSys) (p : String) : FileSys :=
  fs.eraseP (fun f => f.1 == p)

/-- The recording info stored by `AudioController.start_recording`. -/
structure RecInfo where
  event_type : String
  timestamp : String
  expected_filename : String
  start_time : Int
deriving DecidableEq, Repr

structure CtrlState where
  recording_active : Bool
  current_recording_info : Option RecInfo
deriving DecidableEq, Repr

def ctrlInit : CtrlState where
  recording_active := false
  current_recording_info := none

/-- Observable controller actions, in order of occurrence. -/
inductive CtrlAction where
  | cmdStart (event_type : String)
  | cmdStop
  | sleepGrace
  | deletedFile (path : String)
  | transcribe (path : String)
deriving DecidableEq, Repr

/-- Membership in the glob `audio_{event_type}_{timestamp[:8]}_*.wav` inside
`AUDIO_DIR`: the path is the fixed stem followed by anything followed by
`.wav`. -/
def matchesGlob (event_type timestamp path : String) : Bool :=
  let stem :=
    (AUDIO_DIR ++ "/audio_" ++ event_type ++ "_" ++ timestamp.take 8 ++ "_").toList
  let p := path.toList
  stem.isPrefixOf p && (".wav".toList).isSuffixOf (p.drop stem.length)

/-- `AudioController.start_recording`: remember the classification, the
timestamp and the independently recomputed expected path, then send
`START:<classification>`. -/
def ctrl_start_recording (_cs : CtrlState) (event_type timestamp : String)
    (now : Int) : CtrlState × List CtrlAction :=
  let expected := get_audio_filename event_type timestamp
  ({ recording_active := true,
     current_recording_info :=
       some { event_type := event_type, timestamp := timestamp,
              expected_filename := expected, start_time := now } },
   [.cmdStart event_type])

/-- `AudioController._delete_current_recording`: try the predicted path
first; if absent, glob by classification and date prefix and delete the
first file created within the last 30 seconds (30000 ms), if any;
otherwise give up silently. -/
def delete_current_recording (cs : CtrlState) (fs : FileSys) (now : Int) :
    CtrlState × FileSys × List CtrlAction :=
  match cs.current_recording_info with
  | none => (cs, fs, [])
  | some info =>
      if fsExists fs info.expected_filename then
        ({ cs with current_recording_info := none },
         fsRemove fs info.expected_filename,
         [.deletedFile info.expected_filename])
      else
        let recent :=
          fs.filter (fun f => matchesGlob info.event_type info.timestamp f.1)
        let cutoff := now - 30000
        match recent.find? (fun f => decide (cutoff < f.2)) with
        | some f =>
            ({ cs with current_recording_info := none },
             fsRemove fs f.1, [.deletedFile f.1])
        | none => (cs, fs, [])

/-- `AudioController.stop_recording`: always send `STOP`; when deletion is
requested and a recording is tracked, wait a grace second and delete. -/
def ctrl_stop_recording (cs : CtrlState) (fs : FileSys) (now : Int)
    (should_delete : Bool) : CtrlState × FileSys × List CtrlAction :=
  let cs1 := { cs with recording_active := false }
  if should_delete && cs1.current_recording_info.isSome then
    let r := delete_current_recording cs1 fs now
    (r.1, r.2.1, [.cmdStop, .sleepGrace] ++ r.2.2)
  else
    (cs1, fs, [.cmdStop])

/-- `RDSLogger._handle_end_event`: capture the recording info, stop (and
possibly delete); for an unfiltered end with a transcriber available, hand
the expected path to the transcriber when the artifact exists. -/
def handle_end_event (cs : CtrlState) (fs : FileSys) (now : Int)
    (is_filtered : Bool) (transcriber_available : Bool) :
    CtrlState × FileSys × List CtrlAction :=
  let recording_info := cs.current_recording_info
  let r := ctrl_stop_recording cs fs now is_filtered
  if !is_filtered then
    match recording_info with
    | some info =>
        if transcriber_available && fsExists r.2.1 info.expected_filename then
          (r.1, r.2.1, r.2.2 ++ [.transcribe info.expected_filename])
        else r
    | none => r
  else
    r

/-! ### Shape lemmas for the event dispatch helpers -/

/-- The state change `_trigger_event` makes when the event goes through. -/
def bumpState (s : DetState) (now : Int) : DetState :=
  { s with last_event_time := some now,
           events_detected := s.events_detected + 1 }

lemma trigger_event_shape (s : DetState) (now : Int) (ev : Event) (force : Bool) :
    trigger_event s now ev force = (s, []) ∨
    trigger_event s now ev force
      = (bumpState s now, [{ ev with event_time := now }]) := by
  unfold trigger_event bumpState
  split
  · exact Or.inl rfl
  · exact Or.inr rfl

lemma trigger_event_forced (s : DetState) (now : Int) (ev : Event) :
    trigger_event s now ev true
      = (bumpState s now, [{ ev with event_time := now }]) := by
  unfold trigger_event bumpState
  simp

lemma trigger_event_nondebounced (s : DetState) (now : Int) (ev : Event)
    (force : Bool) (h : debouncedAt s now = false) :
    trigger_event s now ev force
      = (bumpState s now, [{ ev with event_time := now }]) := by
  unfold trigger_event bumpState
  simp [h]

lemma trigger_event_debounced (s : DetState) (now : Int) (ev : Event)
    (h : debouncedAt s now = true) (hf : is_vma_event ev.etype = false)
    (he : is_end_event ev.etype = false) :
    trigger_event s now ev false = (s, []) := by
  unfold trigger_event
  simp [h, hf, he]

lemma detect_vma_events_state (s : DetState) (now : Int) :
    (detect_vma_events s now).1 = s
      ∨ (detect_vma_events s now).1 = bumpState s now := by
  unfold detect_vma_events
  simp only [trigger_event_forced]
  split_ifs <;> simp

lemma detect_vma_events_types (s : DetState) (now : Int) :
    ∀ e ∈ (detect_vma_events s now).2, is_vma_event e.etype = true := by
  unfold detect_vma_events
  simp only [trigger_event_forced]
  split_ifs <;> simp <;> decide

lemma detect_program_changes_state (s : DetState) (now : Int) :
    (detect_program_changes s now).1 = s
      ∨ (detect_program_changes s now).1 = bumpState s now := by
  unfold detect_program_changes
  dsimp only
  rcases trigger_event_shape s now
      { etype := .program_change, event_time := now } false with h | h <;>
    rw [h] <;> split_ifs <;> simp

lemma detect_program_changes_types (s : DetState) (now : Int) :
    ∀ e ∈ (detect_program_changes s now).2,
      e.etype = EventType.program_change := by
  unfold detect_program_changes
  dsimp only
  rcases trigger_event_shape s now
      { etype := .program_change, event_time := now } false with h | h <;>
    rw [h] <;> split_ifs <;> simp

/-! ### Case lemmas for the traffic handlers -/

lemma cons_beq_nil {α : Type} [BEq α] (a : α) (l : List α) :
    ((a :: l : List α) == ([] : List α)) = false := rfl

lemma handle_traffic_start_suppressed (s : DetState) (now : Int)
    (h : isVmaPty (s.current_state "pty") = true) :
    handle_traffic_start s now = (s, []) := by
  unfold handle_traffic_start
  simp [h]

lemma handle_traffic_start_open (s : DetState) (now : Int)
    (h : isVmaPty (s.current_state "pty") = false) :
    handle_traffic_start s now =
      trigger_event
        { s with current_traffic_start_time := some now,
                 rds_timestamps_during_event := [now],
                 current_event_type := .traffic,
                 timeout_timer := some (now + max_traffic_duration_seconds) }
        now { etype := .traffic_start, event_time := now } false := by
  unfold handle_traffic_start start_emergency_timer
  simp [h]

lemma handle_traffic_end_closed (s : DetState) (now : Int)
    (h : s.current_traffic_start_time = none) :
    handle_traffic_end s now =
      ({ s with timeout_timer := none,
                current_traffic_start_time := none,
                rds_timestamps_during_event := [],
                current_event_type := .traffic }, []) := by
  unfold handle_traffic_end
  rw [h]

lemma handle_traffic_end_open (s : DetState) (now t0 : Int)
    (h : s.current_traffic_start_time = some t0) :
    handle_traffic_end s now =
      ({ s with timeout_timer := none,
                current_traffic_start_time := none,
                rds_timestamps_during_event := [],
                current_event_type := .traffic,
                last_event_time := some now,
                events_detected := s.events_detected + 1,
                duration_filtered := s.duration_filtered +
                  (if now - t0 < minDurationOf s.current_event_type then 1 else 0),
                continuity_filtered := s.continuity_filtered +
                  (if check_rds_continuity s.rds_timestamps_during_event
                   then 0 else 1),
                filtered_events := s.filtered_events +
                  (if (decide (now - t0 < minDurationOf s.current_event_type)
                        || !check_rds_continuity s.rds_timestamps_during_event)
                   then 1 else 0) },
       [{ etype := .traffic_end,
          event_time := now,
          filtered := decide (now - t0 < minDurationOf s.current_event_type)
            || !check_rds_continuity s.rds_timestamps_during_event,
          filter_reasons :=
            (if now - t0 < minDurationOf s.current_event_type
             then [FilterReason.durationTooShort (now - t0)
                    (minDurationOf s.current_event_type)] else [])
            ++ (if check_rds_continuity s.rds_timestamps_during_event
                then [] else [FilterReason.rdsGaps max_rds_gap_seconds]),
          duration_seconds := some (now - t0) }]) := by
  unfold handle_traffic_end
  rw [h]
  dsimp only
  rw [trigger_event_forced]
  cases hd : decide (now - t0 < minDurationOf s.current_event_type) <;>
    cases hc : check_rds_continuity s.rds_timestamps_during_event <;>
      simp_all [bumpState, cons_beq_nil]


lemma detect_traffic_skip (s : DetState) (now : Int)
    (h : ∀ b, s.current_state "ta" ≠ some (RVal.vBool b)) :
    detect_traffic_events s now = (s, []) := by
  unfold detect_traffic_events
  cases hta : s.current_state "ta" with
  | none => rfl
  | some v =>
      cases v with
      | vNull => rfl
      | vBool b => exact absurd hta (h b)
      | vInt n => rfl
      | vStr t => rfl

lemma detect_traffic_seed (s : DetState) (now : Int) (b : Bool)
    (hta : s.current_state "ta" = some (RVal.vBool b))
    (hlv : s.last_valid_ta_state = none) :
    detect_traffic_events s now = ({ s with last_valid_ta_state := some b }, []) := by
  unfold detect_traffic_events
  rw [hta, hlv]

lemma detect_traffic_same (s : DetState) (now : Int) (b : Bool)
    (hta : s.current_state "ta" = some (RVal.vBool b))
    (hlv : s.last_valid_ta_state = some b) :
    detect_traffic_events s now = (s, []) := by
  unfold detect_traffic_events
  rw [hta, hlv]
  simp

lemma detect_traffic_rising (s : DetState) (now : Int)
    (hta : s.current_state "ta" = some (RVal.vBool true))
    (hlv : s.last_valid_ta_state = some false) :
    detect_traffic_events s now =
      ({ (handle_traffic_start s now).1 with last_valid_ta_state := some true },
       (handle_traffic_start s now).2) := by
  unfold detect_traffic_events
  rw [hta, hlv]
  simp

lemma detect_traffic_falling (s : DetState) (now : Int)
    (hta : s.current_state "ta" = some (RVal.vBool false))
    (hlv : s.last_valid_ta_state = some true) :
    detect_traffic_events s now =
      ({ (handle_traffic_end s now).1 with last_valid_ta_state := some false },
       (handle_traffic_end s now).2) := by
  unfold detect_traffic_events
  rw [hta, hlv]
  simp

lemma process_rds_data_cons (s : DetState) (now : Int) (snap : Snap)
    (h : snap ≠ []) :
    process_rds_data s now snap =
      ((detect_program_changes (detect_vma_events (detect_traffic_events
          (recordTimestamps (mergedState s snap) now) now).1 now).1 now).1,
       (detect_traffic_events (recordTimestamps (mergedState s snap) now) now).2
         ++ (detect_vma_events (detect_traffic_events
              (recordTimestamps (mergedState s snap) now) now).1 now).2
         ++ (detect_program_changes (detect_vma_events (detect_traffic_events
              (recordTimestamps (mergedState s snap) now) now).1 now).1 now).2) := by
  unfold process_rds_data
  rw [if_neg h]

/-- The episode-opening state change of `_handle_traffic_start`. -/
def openedState (s : DetState) (now : Int) : DetState :=
  { s with current_traffic_start_time := some now,
           rds_timestamps_during_event := [now],
           current_event_type := .traffic,
           timeout_timer := some (now + max_traffic_duration_seconds) }

lemma debouncedAt_eq (s s' : DetState) (now : Int)
    (h : s'.last_event_time = s.last_event_time) :
    debouncedAt s' now = debouncedAt s now := by
  unfold debouncedAt
  rw [h]

lemma handle_traffic_start_debounced (s : DetState) (now : Int)
    (hpty : isVmaPty (s.current_state "pty") = false)
    (hdeb : debouncedAt s now = true) :
    handle_traffic_start s now = (openedState s now, []) := by
  have hv : is_vma_event EventType.traffic_start = false := by decide
  have he : is_end_event EventType.traffic_start = false := by decide
  unfold handle_traffic_start start_emergency_timer trigger_event openedState
  rw [hpty]
  have hdeb2 : debouncedAt
      { s with current_traffic_start_time := some now,
               rds_timestamps_during_event := [now],
               current_event_type := Classification.traffic,
               timeout_timer := some (now + max_traffic_duration_seconds) } now
        = true := hdeb
  simp [hdeb2, hv, he]

lemma handle_traffic_start_emit (s : DetState) (now : Int)
    (hpty : isVmaPty (s.current_state "pty") = false)
    (hdeb : debouncedAt s now = false) :
    handle_traffic_start s now
      = (bumpState (openedState s now) now,
         [{ etype := .traffic_start, event_time := now }]) := by
  unfold handle_traffic_start start_emergency_timer trigger_event openedState bumpState
  rw [hpty]
  have hdeb2 : debouncedAt
      { s with current_traffic_start_time := some now,
               rds_timestamps_during_event := [now],
               current_event_type := Classification.traffic,
               timeout_timer := some (now + max_traffic_duration_seconds) } now
        = false := hdeb
  simp [hdeb2]

lemma detect_traffic_rising_suppressed (s : DetState) (now : Int)
    (hta : s.current_state "ta" = some (RVal.vBool true))
    (hlv : s.last_valid_ta_state = some false)
    (hpty : isVmaPty (s.current_state "pty") = true) :
    detect_traffic_events s now
      = ({ s with last_valid_ta_state := some true }, []) := by
  rw [detect_traffic_rising s now hta hlv, handle_traffic_start_suppressed s now hpty]

lemma detect_traffic_rising_debounced (s : DetState) (now : Int)
    (hta : s.current_state "ta" = some (RVal.vBool true))
    (hlv : s.last_valid_ta_state = some false)
    (hpty : isVmaPty (s.current_state "pty") = false)
    (hdeb : debouncedAt s now = true) :
    detect_traffic_events s now
      = ({ openedState s now with last_valid_ta_state := some true }, []) := by
  rw [detect_traffic_rising s now hta hlv, handle_traffic_start_debounced s now hpty hdeb]

lemma detect_traffic_rising_emit (s : DetState) (now : Int)
    (hta : s.current_state "ta" = some (RVal.vBool true))
    (hlv : s.last_valid_ta_state = some false)
    (hpty : isVmaPty (s.current_state "pty") = false)
    (hdeb : debouncedAt s now = false) :
    detect_traffic_events s now
      = ({ bumpState (openedState s now) now with last_valid_ta_state := some true },
         [{ etype := .traffic_start, event_time := now }]) := by
  rw [detect_traffic_rising s now hta hlv, handle_traffic_start_emit s now hpty hdeb]

lemma recordTimestamps_current_state (s : DetState) (now : Int) :
    (recordTimestamps s now).current_state = s.current_state := by
  unfold recordTimestamps
  split <;> rfl

lemma recordTimestamps_previous_state (s : DetState) (now : Int) :
    (recordTimestamps s now).previous_state = s.previous_state := by
  unfold recordTimestamps
  split <;> rfl

lemma detect_vma_events_core (s : DetState) (now : Int) :
    ((detect_vma_events s now).1.previous_state = s.previous_state) ∧
    ((detect_vma_events s now).1.current_state = s.current_state) ∧
    ((detect_vma_events s now).1.last_valid_ta_state = s.last_valid_ta_state) ∧
    ((detect_vma_events s now).1.current_traffic_start_time
       = s.current_traffic_start_time) ∧
    ((detect_vma_events s now).1.timeout_timer = s.timeout_timer) ∧
    ((detect_vma_events s now).1.current_event_type = s.current_event_type) ∧
    ((detect_vma_events s now).1.rds_timestamps_during_event
       = s.rds_timestamps_during_event) := by
  rcases detect_vma_events_state s now with h | h <;> rw [h] <;> simp [bumpState]

lemma detect_program_changes_core (s : DetState) (now : Int) :
    ((detect_program_changes s now).1.previous_state = s.previous_state) ∧
    ((detect_program_changes s now).1.current_state = s.current_state) ∧
    ((detect_program_changes s now).1.last_valid_ta_state
       = s.last_valid_ta_state) ∧
    ((detect_program_changes s now).1.current_traffic_start_time
       = s.current_traffic_start_time) ∧
    ((detect_program_changes s now).1.timeout_timer = s.timeout_timer) ∧
    ((detect_program_changes s now).1.current_event_type
       = s.current_event_type) ∧
    ((detect_program_changes s now).1.rds_timestamps_during_event
       = s.rds_timestamps_during_event) := by
  rcases detect_program_changes_state s now with h | h <;> rw [h] <;> simp [bumpState]

/-- The episode reset applied after an End (and after a Timeout). -/
def resetState (s : DetState) : DetState :=
  { s with timeout_timer := none,
           current_traffic_start_time := none,
           rds_timestamps_during_event := [],
           current_event_type := .traffic }

/-- The `TRAFFIC_END` event built by `_handle_traffic_end` for an episode
opened at `t0` and ended at `now`. -/
def endEventOf (s : DetState) (now t0 : Int) : Event :=
  { etype := .traffic_end,
    event_time := now,
    filtered := decide (now - t0 < minDurationOf s.current_event_type)
      || !check_rds_continuity s.rds_timestamps_during_event,
    filter_reasons :=
      (if now - t0 < minDurationOf s.current_event_type
       then [FilterReason.durationTooShort (now - t0)
              (minDurationOf s.current_event_type)] else [])
      ++ (if check_rds_continuity s.rds_timestamps_during_event
          then [] else [FilterReason.rdsGaps max_rds_gap_seconds]),
    duration_seconds := some (now - t0) }

/-- The post-End state for an episode opened at `t0` and ended at `now`. -/
def endedState (s : DetState) (now t0 : Int) : DetState :=
  { s with timeout_timer := none,
           current_traffic_start_time := none,
           rds_timestamps_during_event := [],
           current_event_type := .traffic,
           last_event_time := some now,
           events_detected := s.events_detected + 1,
           duration_filtered := s.duration_filtered +
             (if now - t0 < minDurationOf s.current_event_type then 1 else 0),
           continuity_filtered := s.continuity_filtered +
             (if check_rds_continuity s.rds_timestamps_during_event
              then 0 else 1),
           filtered_events := s.filtered_events +
             (if (decide (now - t0 < minDurationOf s.current_event_type)
                   || !check_rds_continuity s.rds_timestamps_during_event)
              then 1 else 0) }

lemma handle_traffic_end_open_defs (s : DetState) (now t0 : Int)
    (h : s.current_traffic_start_time = some t0) :
    handle_traffic_end s now = (endedState s now t0, [endEventOf s now t0]) :=
  handle_traffic_end_open s now t0 h

/-- One exhaustive case analysis of `_detect_traffic_events`. -/
lemma detect_traffic_master (s : DetState) (now : Int) :
    (detect_traffic_events s now = (s, []))
    ∨ (∃ b, s.current_state "ta" = some (RVal.vBool b)
        ∧ s.last_valid_ta_state = none
        ∧ detect_traffic_events s now
            = ({ s with last_valid_ta_state := some b }, []))
    ∨ (s.current_state "ta" = some (RVal.vBool true)
        ∧ s.last_valid_ta_state = some false
        ∧ isVmaPty (s.current_state "pty") = true
        ∧ detect_traffic_events s now
            = ({ s with last_valid_ta_state := some true }, []))
    ∨ (s.current_state "ta" = some (RVal.vBool true)
        ∧ s.last_valid_ta_state = some false
        ∧ isVmaPty (s.current_state "pty") = false
        ∧ debouncedAt s now = true
        ∧ detect_traffic_events s now
            = ({ openedState s now with last_valid_ta_state := some true }, []))
    ∨ (s.current_state "ta" = some (RVal.vBool true)
        ∧ s.last_valid_ta_state = some false
        ∧ isVmaPty (s.current_state "pty") = false
        ∧ debouncedAt s now = false
        ∧ detect_traffic_events s now
            = ({ bumpState (openedState s now) now with
                   last_valid_ta_state := some true },
               [{ etype := .traffic_start, event_time := now }]))
    ∨ (s.current_state "ta" = some (RVal.vBool false)
        ∧ s.last_valid_ta_state = some true
        ∧ s.current_traffic_start_time = none
        ∧ detect_traffic_events s now
            = ({ resetState s with last_valid_ta_state := some false }, []))
    ∨ (∃ t0, s.current_state "ta" = some (RVal.vBool false)
        ∧ s.last_valid_ta_state = some true
        ∧ s.current_traffic_start_time = some t0
        ∧ detect_traffic_events s now
            = ({ endedState s now t0 with last_valid_ta_state := some false },
               [endEventOf s now t0])) := by
  cases hta : s.current_state "ta" with
  | none =>
      exact Or.inl (detect_traffic_skip s now (by simp [hta]))
  | some v =>
      cases v with
      | vNull => exact Or.inl (detect_traffic_skip s now (by simp [hta]))
      | vInt n => exact Or.inl (detect_traffic_skip s now (by simp [hta]))
      | vStr t => exact Or.inl (detect_traffic_skip s now (by simp [hta]))
      | vBool b =>
          cases hlv : s.last_valid_ta_state with
          | none =>
              exact Or.inr (Or.inl ⟨b, rfl, rfl, detect_traffic_seed s now b hta hlv⟩)
          | some p =>
              cases hb : b with
              | true =>
                  cases hp : p with
                  | true =>
                      refine Or.inl (detect_traffic_same s now true ?_ ?_)
                      · rw [hta, hb]
                      · rw [hlv, hp]
                  | false =>
                      rw [hb] at hta
                      rw [hp] at hlv
                      by_cases hpty : isVmaPty (s.current_state "pty") = true
                      · exact Or.inr (Or.inr (Or.inl ⟨rfl, rfl, hpty,
                          detect_traffic_rising_suppressed s now hta hlv hpty⟩))
                      · have hpty2 : isVmaPty (s.current_state "pty") = false :=
                          Bool.not_eq_true _ ▸ eq_false_of_ne_true hpty
                        by_cases hdeb : debouncedAt s now = true
                        · exact Or.inr (Or.inr (Or.inr (Or.inl ⟨rfl, rfl, hpty2, hdeb,
                            detect_traffic_rising_debounced s now hta hlv hpty2 hdeb⟩)))
                        · have hdeb2 : debouncedAt s now = false :=
                            Bool.not_eq_true _ ▸ eq_false_of_ne_true hdeb
                          exact Or.inr (Or.inr (Or.inr (Or.inr (Or.inl
                            ⟨rfl, rfl, hpty2, hdeb2,
                             detect_traffic_rising_emit s now hta hlv hpty2 hdeb2⟩))))
              | false =>
                  cases hp : p with
                  | false =>
                      refine Or.inl (detect_traffic_same s now false ?_ ?_)
                      · rw [hta, hb]
                      · rw [hlv, hp]
                  | true =>
                      rw [hb] at hta
                      rw [hp] at hlv
                      cases hst : s.current_traffic_start_time with
                      | none =>
                          refine Or.inr (Or.inr (Or.inr (Or.inr (Or.inr (Or.inl
                            ⟨rfl, rfl, rfl, ?_⟩)))))
                          rw [detect_traffic_falling s now hta hlv,
                            handle_traffic_end_closed s now hst]
                          rfl
                      | some t0 =>
                          refine Or.inr (Or.inr (Or.inr (Or.inr (Or.inr (Or.inr
                            ⟨t0, rfl, rfl, rfl, ?_⟩)))))
                          rw [detect_traffic_falling s now hta hlv,
                            handle_traffic_end_open_defs s now t0 hst]

lemma detect_traffic_events_dicts (s : DetState) (now : Int) :
    ((detect_traffic_events s now).1.previous_state = s.previous_state) ∧
    ((detect_traffic_events s now).1.current_state = s.current_state) := by
  rcases detect_traffic_master s now with
    h | ⟨b, _, _, h⟩ | ⟨_, _, _, h⟩ | ⟨_, _, _, _, h⟩ | ⟨_, _, _, _, h⟩
      | ⟨_, _, _, h⟩ | ⟨t0, _, _, _, h⟩ <;>
    rw [h] <;> simp [openedState, bumpState, resetState, endedState]

lemma traffic_events_etypes (s : DetState) (now : Int) :
    ∀ e ∈ (detect_traffic_events s now).2,
      e.etype = EventType.traffic_start ∨ e.etype = EventType.traffic_end := by
  rcases detect_traffic_master s now with
    h | ⟨b, _, _, h⟩ | ⟨_, _, _, h⟩ | ⟨_, _, _, _, h⟩ | ⟨_, _, _, _, h⟩
      | ⟨_, _, _, h⟩ | ⟨t0, _, _, _, h⟩ <;>
    rw [h] <;> simp [endEventOf]

lemma traffic_start_not_mem_of_vma (s : DetState) (now : Int)
    (hpty : isVmaPty (s.current_state "pty") = true) :
    ∀ e ∈ (detect_traffic_events s now).2,
      e.etype ≠ EventType.traffic_start := by
  rcases detect_traffic_master s now with
    h | ⟨b, _, _, h⟩ | ⟨_, _, _, h⟩ | ⟨_, _, hp, _, h⟩ | ⟨_, _, hp, _, h⟩
      | ⟨_, _, _, h⟩ | ⟨t0, _, _, _, h⟩ <;>
    rw [h] <;> simp_all [endEventOf]

/-- C10: each processed snapshot is merged by dictionary update — the
previous state becomes the old current state, keys absent from the snapshot
keep their previous value, the two states differ only on supplied keys, and
an omitted `pty` leaves the stored `pty` unchanged. -/
theorem claim_c10 (s : DetState) (now : Int) (snap : Snap) (h : snap ≠ []) :
    ((process_rds_data s now snap).1.previous_state = s.current_state) ∧
    (∀ k, snap.lookup k = none →
      (process_rds_data s now snap).1.current_state k
        = (process_rds_data s now snap).1.previous_state k) ∧
    (∀ k, (process_rds_data s now snap).1.current_state k
        ≠ (process_rds_data s now snap).1.previous_state k →
      (snap.lookup k).isSome = true) ∧
    (snap.lookup "pty" = none →
      (process_rds_data s now snap).1.current_state "pty"
        = s.current_state "pty") := by
  rw [process_rds_data_cons s now snap h]
  have hT := detect_traffic_events_dicts (recordTimestamps (mergedState s snap) now) now
  have hV := detect_vma_events_core (detect_traffic_events
    (recordTimestamps (mergedState s snap) now) now).1 now
  have hP := detect_program_changes_core (detect_vma_events (detect_traffic_events
    (recordTimestamps (mergedState s snap) now) now).1 now).1 now
  have hprev : (detect_program_changes (detect_vma_events (detect_traffic_events
      (recordTimestamps (mergedState s snap) now) now).1 now).1 now).1.previous_state
      = s.current_state := by
    rw [hP.1, hV.1, hT.1, recordTimestamps_previous_state]
    rfl
  have hcurr : (detect_program_changes (detect_vma_events (detect_traffic_events
      (recordTimestamps (mergedState s snap) now) now).1 now).1 now).1.current_state
      = updateDict s.current_state snap := by
    rw [hP.2.1, hV.2.1, hT.2, recordTimestamps_current_state]
    rfl
  refine ⟨hprev, ?_, ?_, ?_⟩
  · intro k hk
    rw [hprev, hcurr]
    unfold updateDict
    rw [hk]
  · intro k hk
    cases hl : snap.lookup k with
    | none =>
        exfalso
        apply hk
        rw [hprev, hcurr]
        unfold updateDict
        rw [hl]
    | some v => rfl
  · intro hk
    rw [hcurr]
    unfold updateDict
    rw [hk]

/-- Concrete instantiation of `claim_c10`: a snapshot carrying only `ta`
leaves the stored `pty` unchanged. -/
theorem claim_c10_witness :
    (process_rds_data initState 0 [("ta", RVal.vBool true)]).1.current_state "pty"
      = initState.current_state "pty" :=
  (claim_c10 initState 0 [("ta", RVal.vBool true)] (by decide)).2.2.2 rfl

/-- C6: while the merged `pty` is in the VMA set, no `TRAFFIC_START` is
emitted by the tick, even on a false-to-true TA edge. -/
theorem claim_c6 (s : DetState) (now : Int) (snap : Snap)
    (h : isVmaPty (updateDict s.current_state snap "pty") = true) :
    EventType.traffic_start ∉ (process_rds_data s now snap).2.map Event.etype := by
  by_cases hs : snap = []
  · subst hs
    unfold process_rds_data
    simp
  · rw [process_rds_data_cons s now snap hs]
    intro hmem
    rw [List.map_append, List.map_append] at hmem
    rcases List.mem_append.mp hmem with hmem1 | hmem3
    · rcases List.mem_append.mp hmem1 with hmem1 | hmem2
      · obtain ⟨e, he, hee⟩ := List.mem_map.mp hmem1
        have hpty1 : isVmaPty ((recordTimestamps (mergedState s snap) now).current_state "pty")
            = true := by
          rw [recordTimestamps_current_state]
          exact h
        exact traffic_start_not_mem_of_vma _ now hpty1 e he hee
      · obtain ⟨e, he, hee⟩ := List.mem_map.mp hmem2
        have := detect_vma_events_types _ now e he
        rw [hee] at this
        exact absurd this (by decide)
    · obtain ⟨e, he, hee⟩ := List.mem_map.mp hmem3
      have := detect_program_changes_types _ now e he
      rw [hee] at this
      exact absurd this (by decide)

/-- Concrete instantiation of `claim_c6`: a false-to-true TA edge arriving
together with `pty = 31` produces no `TRAFFIC_START`. -/
theorem claim_c6_witness :
    EventType.traffic_start ∉
      (process_rds_data
        { initState with last_valid_ta_state := some false } 0
        [("ta", RVal.vBool true), ("pty", RVal.vInt 31)]).2.map Event.etype :=
  claim_c6 { initState with last_valid_ta_state := some false } 0
    [("ta", RVal.vBool true), ("pty", RVal.vInt 31)] (by decide)

lemma recordTimestamps_core (s : DetState) (now : Int) :
    ((recordTimestamps s now).last_event_time = s.last_event_time) ∧
    ((recordTimestamps s now).last_valid_ta_state = s.last_valid_ta_state) ∧
    ((recordTimestamps s now).current_traffic_start_time
       = s.current_traffic_start_time) ∧
    ((recordTimestamps s now).current_event_type = s.current_event_type) ∧
    ((recordTimestamps s now).timeout_timer = s.timeout_timer) := by
  unfold recordTimestamps
  split <;> simp

lemma isVmaPty_true_cases (v : Option RVal) (h : isVmaPty v = true) :
    v = some (RVal.vInt 30) ∨ v = some (RVal.vInt 31) := by
  unfold isVmaPty at h
  rcases Bool.or_eq_true_iff.mp h with h1 | h1
  · exact Or.inl (eq_of_beq h1)
  · exact Or.inr (eq_of_beq h1)

lemma detect_vma_events_eq_skip (s : DetState) (now : Int)
    (h : s.current_state "pty" = none ∨ s.current_state "pty" = some RVal.vNull) :
    detect_vma_events s now = (s, []) := by
  unfold detect_vma_events
  rcases h with h | h <;> simp [h]

lemma detect_vma_events_eq_start (s : DetState) (now : Int)
    (hc : isVmaPty (s.current_state "pty") = true)
    (hp : isVmaPty (s.previous_state "pty") = false) :
    detect_vma_events s now
      = (bumpState s now,
         [{ etype := if s.current_state "pty" == some (RVal.vInt 30)
                     then EventType.vma_test_start else EventType.vma_start,
            event_time := now }]) := by
  have hnotnull : (s.current_state "pty" == none
      || s.current_state "pty" == some RVal.vNull) = false := by
    rcases isVmaPty_true_cases _ hc with h | h <;> rw [h] <;> rfl
  unfold detect_vma_events
  dsimp only
  rw [hnotnull]
  simp only [Bool.false_eq_true, if_false, hc, hp, Bool.not_false, Bool.and_self,
    if_true]
  rw [trigger_event_forced]

lemma detect_vma_events_eq_end (s : DetState) (now : Int)
    (hp : isVmaPty (s.previous_state "pty") = true)
    (hc : isVmaPty (s.current_state "pty") = false)
    (hn : s.current_state "pty" ≠ none)
    (hnn : s.current_state "pty" ≠ some RVal.vNull) :
    detect_vma_events s now
      = (bumpState s now,
         [{ etype := if s.previous_state "pty" == some (RVal.vInt 30)
                     then EventType.vma_test_end else EventType.vma_end,
            event_time := now }]) := by
  have hnotnull : (s.current_state "pty" == none
      || s.current_state "pty" == some RVal.vNull) = false := by
    simp [hn, hnn]
  unfold detect_vma_events
  dsimp only
  rw [hnotnull]
  simp only [Bool.false_eq_true, if_false, hc, hp, Bool.not_true, Bool.and_false,
    Bool.not_false, Bool.and_self, if_true]
  rw [trigger_event_forced]

lemma detect_vma_events_eq_both (s : DetState) (now : Int)
    (hc : isVmaPty (s.current_state "pty") = true)
    (hp : isVmaPty (s.previous_state "pty") = true) :
    detect_vma_events s now = (s, []) := by
  have hnotnull : (s.current_state "pty" == none
      || s.current_state "pty" == some RVal.vNull) = false := by
    rcases isVmaPty_true_cases _ hc with h | h <;> rw [h] <;> rfl
  unfold detect_vma_events
  dsimp only
  rw [hnotnull]
  simp [hc, hp]

/-- Membership test used to isolate the traffic-lifecycle events of a tick. -/
def isTrafficEvent (e : Event) : Bool :=
  e.etype == EventType.traffic_start || e.etype == EventType.traffic_end
    || e.etype == EventType.traffic_timeout

lemma vma_etype_not_traffic (t : EventType) (h : is_vma_event t = true) :
    (t == EventType.traffic_start || t == EventType.traffic_end
      || t == EventType.traffic_timeout) = false := by
  cases t <;> revert h <;> decide

lemma filter_traffic_vma (s : DetState) (now : Int) :
    (detect_vma_events s now).2.filter isTrafficEvent = [] := by
  rw [List.filter_eq_nil_iff]
  intro e he
  have hv := vma_etype_not_traffic e.etype (detect_vma_events_types s now e he)
  simp [isTrafficEvent, hv]

lemma filter_traffic_prog (s : DetState) (now : Int) :
    (detect_program_changes s now).2.filter isTrafficEvent = [] := by
  rw [List.filter_eq_nil_iff]
  intro e he
  have := detect_program_changes_types s now e he
  simp [isTrafficEvent, this]

lemma check_rds_continuity_false_iff (ts : List Int) :
    check_rds_continuity ts = false ↔
      (ts.length < 2 ∨ ∃ g ∈ consecutiveGaps ts, max_rds_gap_seconds < g) := by
  unfold check_rds_continuity
  split
  · simp [*]
  · rename_i hlen
    simp only [List.all_eq_false, decide_eq_true_eq, not_le]
    constructor
    · rintro ⟨g, hg, hgt⟩
      exact Or.inr ⟨g, hg, hgt⟩
    · rintro (h | ⟨g, hg, hgt⟩)
      · exact absurd h hlen
      · exact ⟨g, hg, hgt⟩

/-- C2: for an open episode, `_handle_traffic_end` always emits exactly one
`TRAFFIC_END`; it is filtered exactly when the duration is below the
classification threshold or the continuity check fails, the continuity
check fails exactly when fewer than two snapshot times were recorded or a
consecutive gap exceeds the maximum, and a filtered End always carries
reasons. -/
theorem claim_c2 (s : DetState) (now t0 : Int)
    (h : s.current_traffic_start_time = some t0) :
    ((handle_traffic_end s now).2 = [endEventOf s now t0]) ∧
    ((endEventOf s now t0).etype = EventType.traffic_end) ∧
    ((endEventOf s now t0).duration_seconds = some (now - t0)) ∧
    ((endEventOf s now t0).filtered = true ↔
      (now - t0 < minDurationOf s.current_event_type ∨
       check_rds_continuity s.rds_timestamps_during_event = false)) ∧
    (check_rds_continuity s.rds_timestamps_during_event = false ↔
      (s.rds_timestamps_during_event.length < 2 ∨
       ∃ g ∈ consecutiveGaps s.rds_timestamps_during_event,
         max_rds_gap_seconds < g)) ∧
    ((endEventOf s now t0).filtered = true →
      (endEventOf s now t0).filter_reasons ≠ []) := by
  refine ⟨by rw [handle_traffic_end_open_defs s now t0 h], rfl, rfl, ?_, ?_, ?_⟩
  · simp [endEventOf, Bool.or_eq_true, decide_eq_true_eq, Bool.not_eq_true']
  · exact check_rds_continuity_false_iff _
  · intro hf
    unfold endEventOf at hf ⊢
    dsimp only at hf ⊢
    rcases Bool.or_eq_true_iff.mp hf with hd | hc
    · rw [if_pos (of_decide_eq_true hd)]
      simp
    · rw [Bool.not_eq_true' ] at hc
      rw [hc]
      simp

/-- Concrete instantiation of `claim_c2`: an episode opened at time 0 and
ended at time 5 emits exactly one `TRAFFIC_END`, filtered for short
duration. -/
theorem claim_c2_witness :
    ((handle_traffic_end
        { initState with current_traffic_start_time := some 0,
                         rds_timestamps_during_event := [0, 5] } 5).2
      = [endEventOf
          { initState with current_traffic_start_time := some 0,
                           rds_timestamps_during_event := [0, 5] } 5 0]) :=
  (claim_c2
    { initState with current_traffic_start_time := some 0,
                     rds_timestamps_during_event := [0, 5] } 5 0 rfl).1

lemma filter_vma_traffic (s : DetState) (now : Int) :
    (detect_traffic_events s now).2.filter (fun e => is_vma_event e.etype) = [] := by
  rw [List.filter_eq_nil_iff]
  intro e he
  rcases traffic_events_etypes s now e he with h | h <;> simp only [h] <;> decide

lemma filter_vma_vma (s : DetState) (now : Int) :
    (detect_vma_events s now).2.filter (fun e => is_vma_event e.etype)
      = (detect_vma_events s now).2 :=
  List.filter_eq_self.mpr (detect_vma_events_types s now)

lemma filter_vma_prog (s : DetState) (now : Int) :
    (detect_program_changes s now).2.filter (fun e => is_vma_event e.etype) = [] := by
  rw [List.filter_eq_nil_iff]
  intro e he
  have h := detect_program_changes_types s now e he
  simp only [h]
  decide

/-- C4 as frozen is refuted by an explicit-null tick: the stream
`pty 31, pty null, pty 31` yields two `VMA_START` events while the same
stream without the null tick yields one, so an intervening unknown tick
changes which transitions are detected. -/
theorem claim_c4_counterexample :
    ((runDetector initState
        [(0, [("pty", RVal.vInt 31)]), (1, [("pty", RVal.vNull)]),
         (2, [("pty", RVal.vInt 31)])]).2.map Event.etype
       = [EventType.vma_start, EventType.vma_start])
    ∧ ((runDetector initState
        [(0, [("pty", RVal.vInt 31)]), (2, [("pty", RVal.vInt 31)])]).2.map Event.etype
       = [EventType.vma_start]) :=
  ⟨rfl, rfl⟩

/-- C4 amended: per tick, a merged `pty` entering the VMA set emits exactly
the matching forced start, leaving it (to a known value) exactly the
matching forced end, an unknown merged `pty` emits nothing, and a tick
whose merged and previous `pty` are both in the set emits nothing.  The
previous value compared against is the merged state of the previous tick,
so an explicit null overwrites it. -/
theorem claim_c4_amended (s : DetState) (now : Int) (snap : Snap)
    (hsnap : snap ≠ []) :
    ((updateDict s.current_state snap "pty" = none
        ∨ updateDict s.current_state snap "pty" = some RVal.vNull) →
      (process_rds_data s now snap).2.filter (fun e => is_vma_event e.etype) = []) ∧
    (isVmaPty (updateDict s.current_state snap "pty") = true →
      isVmaPty (s.current_state "pty") = false →
      (process_rds_data s now snap).2.filter (fun e => is_vma_event e.etype)
        = [{ etype := if updateDict s.current_state snap "pty" == some (RVal.vInt 30)
                      then EventType.vma_test_start else EventType.vma_start,
             event_time := now }]) ∧
    (isVmaPty (s.current_state "pty") = true →
      isVmaPty (updateDict s.current_state snap "pty") = false →
      updateDict s.current_state snap "pty" ≠ none →
      updateDict s.current_state snap "pty" ≠ some RVal.vNull →
      (process_rds_data s now snap).2.filter (fun e => is_vma_event e.etype)
        = [{ etype := if s.current_state "pty" == some (RVal.vInt 30)
                      then EventType.vma_test_end else EventType.vma_end,
             event_time := now }]) ∧
    (isVmaPty (updateDict s.current_state snap "pty") = true →
      isVmaPty (s.current_state "pty") = true →
      (process_rds_data s now snap).2.filter (fun e => is_vma_event e.etype) = []) := by
  rw [process_rds_data_cons s now snap hsnap]
  have hA : (detect_traffic_events (recordTimestamps (mergedState s snap) now) now).1.current_state
      = updateDict s.current_state snap := by
    rw [(detect_traffic_events_dicts _ _).2, recordTimestamps_current_state]
    rfl
  have hAp : (detect_traffic_events (recordTimestamps (mergedState s snap) now) now).1.previous_state
      = s.current_state := by
    rw [(detect_traffic_events_dicts _ _).1, recordTimestamps_previous_state]
    rfl
  simp only [List.filter_append, filter_vma_traffic, filter_vma_vma, filter_vma_prog,
    List.nil_append, List.append_nil]
  refine ⟨?_, ?_, ?_, ?_⟩
  · intro h
    rw [detect_vma_events_eq_skip _ now (by rw [hA]; exact h)]
  · intro hc hp
    rw [detect_vma_events_eq_start _ now (by rw [hA]; exact hc)
      (by rw [hAp]; exact hp), hA]
  · intro hp hc hn hnn
    rw [detect_vma_events_eq_end _ now (by rw [hAp]; exact hp)
      (by rw [hA]; exact hc) (by rw [hA]; exact hn) (by rw [hA]; exact hnn), hAp]
  · intro hc hp
    rw [detect_vma_events_eq_both _ now (by rw [hA]; exact hc)
      (by rw [hAp]; exact hp)]

/-- Concrete instantiation of `claim_c4_amended`: `pty` arriving as 31 on a
fresh detector emits exactly one forced `VMA_START`. -/
theorem claim_c4_amended_witness :
    (process_rds_data initState 0 [("pty", RVal.vInt 31)]).2.filter
        (fun e => is_vma_event e.etype)
      = [{ etype := if updateDict initState.current_state [("pty", RVal.vInt 31)] "pty"
                        == some (RVal.vInt 30)
                    then EventType.vma_test_start else EventType.vma_start,
           event_time := 0 }] :=
  (claim_c4_amended initState 0 [("pty", RVal.vInt 31)] (by decide)).2.1
    (by decide) (by decide)

lemma filter_traffic_of_traffic (s : DetState) (now : Int) :
    (detect_traffic_events s now).2.filter isTrafficEvent
      = (detect_traffic_events s now).2 := by
  apply List.filter_eq_self.mpr
  intro e he
  rcases traffic_events_etypes s now e he with h | h <;> simp [isTrafficEvent, h]

/-- C5 as frozen is refuted: the valid TA sequence `true, false` contains a
true-to-false edge, yet the run emits no event at all — in particular no
`TRAFFIC_END` — because no episode was open. -/
theorem claim_c5_counterexample :
    (runDetector initState
      [(0, [("ta", RVal.vBool true)]), (100, [("ta", RVal.vBool false)])]).2
      = [] := rfl

/-- C5 amended: per tick — an unknown TA causes no traffic event and leaves
the last-valid state unchanged; the first valid boolean only seeds it; two
equal valid booleans cause nothing; a false-to-true edge emits exactly one
`TRAFFIC_START` unless the merged `pty` is in the VMA set or the debounce
window is active (a debounced edge still opens the episode silently); a
true-to-false edge emits exactly one `TRAFFIC_END` iff an episode is open,
and nothing otherwise. -/
theorem claim_c5_amended (s : DetState) (now : Int) (snap : Snap)
    (hsnap : snap ≠ []) :
    ((∀ b, updateDict s.current_state snap "ta" ≠ some (RVal.vBool b)) →
      (process_rds_data s now snap).2.filter isTrafficEvent = [] ∧
      (process_rds_data s now snap).1.last_valid_ta_state
        = s.last_valid_ta_state) ∧
    (∀ b, updateDict s.current_state snap "ta" = some (RVal.vBool b) →
      s.last_valid_ta_state = none →
      (process_rds_data s now snap).2.filter isTrafficEvent = [] ∧
      (process_rds_data s now snap).1.last_valid_ta_state = some b) ∧
    (∀ b, updateDict s.current_state snap "ta" = some (RVal.vBool b) →
      s.last_valid_ta_state = some b →
      (process_rds_data s now snap).2.filter isTrafficEvent = []) ∧
    (updateDict s.current_state snap "ta" = some (RVal.vBool true) →
      s.last_valid_ta_state = some false →
      (isVmaPty (updateDict s.current_state snap "pty") = true →
        (process_rds_data s now snap).2.filter isTrafficEvent = []) ∧
      (isVmaPty (updateDict s.current_state snap "pty") = false →
        debouncedAt s now = true →
        (process_rds_data s now snap).2.filter isTrafficEvent = []) ∧
      (isVmaPty (updateDict s.current_state snap "pty") = false →
        debouncedAt s now = false →
        (process_rds_data s now snap).2.filter isTrafficEvent
          = [{ etype := .traffic_start, event_time := now }])) ∧
    (updateDict s.current_state snap "ta" = some (RVal.vBool false) →
      s.last_valid_ta_state = some true →
      (s.current_traffic_start_time = none →
        (process_rds_data s now snap).2.filter isTrafficEvent = []) ∧
      (∀ t0, s.current_traffic_start_time = some t0 →
        (process_rds_data s now snap).2.filter isTrafficEvent
          = [endEventOf (recordTimestamps (mergedState s snap) now) now t0])) := by
  rw [process_rds_data_cons s now snap hsnap]
  have hA : (recordTimestamps (mergedState s snap) now).current_state
      = updateDict s.current_state snap := by
    rw [recordTimestamps_current_state]
    rfl
  have hLv : (recordTimestamps (mergedState s snap) now).last_valid_ta_state
      = s.last_valid_ta_state := by
    rw [(recordTimestamps_core _ _).2.1]
    rfl
  have hSt : (recordTimestamps (mergedState s snap) now).current_traffic_start_time
      = s.current_traffic_start_time := by
    rw [(recordTimestamps_core _ _).2.2.1]
    rfl
  have hDeb : debouncedAt (recordTimestamps (mergedState s snap) now) now
      = debouncedAt s now :=
    debouncedAt_eq s _ now (by rw [(recordTimestamps_core _ _).1]; rfl)
  simp only [List.filter_append, filter_traffic_vma, filter_traffic_prog,
    filter_traffic_of_traffic, List.append_nil]
  have hLvOut : ∀ sA : DetState,
      (detect_program_changes (detect_vma_events sA now).1 now).1.last_valid_ta_state
        = sA.last_valid_ta_state := by
    intro sA
    rw [(detect_program_changes_core _ _).2.2.1, (detect_vma_events_core _ _).2.2.1]
  refine ⟨?_, ?_, ?_, ?_, ?_⟩
  · intro hb
    have hz := detect_traffic_skip (recordTimestamps (mergedState s snap) now) now
      (by rw [hA]; exact hb)
    rw [hz]
    exact ⟨rfl, by rw [hLvOut]; exact hLv⟩
  · intro b hta hlv
    have hz := detect_traffic_seed (recordTimestamps (mergedState s snap) now) now b
      (by rw [hA]; exact hta) (by rw [hLv]; exact hlv)
    rw [hz]
    exact ⟨rfl, by rw [hLvOut]⟩
  · intro b hta hlv
    have hz := detect_traffic_same (recordTimestamps (mergedState s snap) now) now b
      (by rw [hA]; exact hta) (by rw [hLv]; exact hlv)
    rw [hz]
  · intro hta hlv
    refine ⟨?_, ?_, ?_⟩
    · intro hpty
      rw [detect_traffic_rising_suppressed (recordTimestamps (mergedState s snap) now) now
        (by rw [hA]; exact hta) (by rw [hLv]; exact hlv) (by rw [hA]; exact hpty)]
    · intro hpty hdeb
      rw [detect_traffic_rising_debounced (recordTimestamps (mergedState s snap) now) now
        (by rw [hA]; exact hta) (by rw [hLv]; exact hlv) (by rw [hA]; exact hpty)
        (by rw [hDeb]; exact hdeb)]
    · intro hpty hdeb
      rw [detect_traffic_rising_emit (recordTimestamps (mergedState s snap) now) now
        (by rw [hA]; exact hta) (by rw [hLv]; exact hlv) (by rw [hA]; exact hpty)
        (by rw [hDeb]; exact hdeb)]
  · intro hta hlv
    constructor
    · intro hst
      have hz := detect_traffic_falling (recordTimestamps (mergedState s snap) now) now
        (by rw [hA]; exact hta) (by rw [hLv]; exact hlv)
      rw [hz, handle_traffic_end_closed _ now (by rw [hSt]; exact hst)]
    · intro t0 hst
      have hz := detect_traffic_falling (recordTimestamps (mergedState s snap) now) now
        (by rw [hA]; exact hta) (by rw [hLv]; exact hlv)
      rw [hz, handle_traffic_end_open_defs _ now t0 (by rw [hSt]; exact hst)]

/-- Concrete instantiation of `claim_c5_amended`: a false-to-true edge on a
fresh-but-seeded detector emits exactly one `TRAFFIC_START`. -/
theorem claim_c5_amended_witness :
    (process_rds_data { initState with last_valid_ta_state := some false } 0
        [("ta", RVal.vBool true)]).2.filter isTrafficEvent
      = [{ etype := .traffic_start, event_time := 0 }] :=
  ((claim_c5_amended { initState with last_valid_ta_state := some false } 0
      [("ta", RVal.vBool true)] (by decide)).2.2.2.1
    (by decide) rfl).2.2 (by decide) rfl

/-- Membership test for episode-closing events (End or Timeout). -/
def isTrafficCloseEvent (e : Event) : Bool :=
  e.etype == EventType.traffic_end || e.etype == EventType.traffic_timeout

/-- Number of episode-closing events in a list. -/
def countCloses (evs : List Event) : Nat :=
  (evs.filter isTrafficCloseEvent).length

/-- 1 when an episode is open. -/
def openBit (s : DetState) : Nat :=
  if s.current_traffic_start_time.isSome then 1 else 0

/-- True when a step running at time `now` opened a fresh episode. -/
def openedAt (s s' : DetState) (now : Int) : Bool :=
  (s'.current_traffic_start_time == some now)
    && !(s.current_traffic_start_time == some now)

/-- Number of episodes opened along a run. -/
def countOpenings : DetState → List (Int × Snap) → Nat
  | _, [] => 0
  | s, inp :: rest =>
      (if openedAt s (stepInput s inp).1 inp.1 then 1 else 0)
        + countOpenings (stepInput s inp).1 rest

/-- The reachable-state invariant tying the watchdog to the open episode:
the timer is armed iff an episode is open, an episode opened at `t` has its
timer expiring at `t + 600000`, and an open episode implies the last valid
TA was true. -/
def DetInv (s : DetState) : Prop :=
  (s.timeout_timer.isSome = s.current_traffic_start_time.isSome) ∧
  (∀ t, s.current_traffic_start_time = some t →
      s.timeout_timer = some (t + max_traffic_duration_seconds)) ∧
  (s.current_traffic_start_time.isSome = true →
      s.last_valid_ta_state = some true)

lemma DetInv_initState : DetInv initState :=
  ⟨rfl, fun t h => by simp [initState] at h, fun h => by simp [initState] at h⟩

lemma emergency_timeout_eq (s : DetState) (now : Int) :
    emergency_timeout s now =
      ({ s with emergency_stops := s.emergency_stops + 1,
                timeout_events := s.timeout_events + 1,
                last_event_time := some now,
                events_detected := s.events_detected + 1,
                current_traffic_start_time := none,
                rds_timestamps_during_event := [],
                timeout_timer := none,
                current_event_type := .traffic },
       [{ etype := .traffic_timeout, event_time := now, filtered := true,
          filter_reasons := [.emergencyTimeout max_traffic_duration_seconds],
          duration_seconds := some max_traffic_duration_seconds }]) := by
  unfold emergency_timeout
  dsimp only
  rw [trigger_event_forced]
  rfl

lemma fire_timer_due (s : DetState) (now expiry : Int)
    (ht : s.timeout_timer = some expiry) (hdue : expiry ≤ now) :
    fire_timer_if_due s now = emergency_timeout s expiry := by
  unfold fire_timer_if_due
  rw [ht]
  exact if_pos hdue

lemma fire_timer_not_due (s : DetState) (now expiry : Int)
    (ht : s.timeout_timer = some expiry) (hdue : ¬expiry ≤ now) :
    fire_timer_if_due s now = (s, []) := by
  unfold fire_timer_if_due
  rw [ht]
  exact if_neg hdue

lemma fire_timer_none (s : DetState) (now : Int)
    (ht : s.timeout_timer = none) :
    fire_timer_if_due s now = (s, []) := by
  unfold fire_timer_if_due
  rw [ht]

lemma filter_close_vma (s : DetState) (now : Int) :
    (detect_vma_events s now).2.filter isTrafficCloseEvent = [] := by
  rw [List.filter_eq_nil_iff]
  intro e he
  have hv := detect_vma_events_types s now e he
  revert hv
  unfold isTrafficCloseEvent
  cases e.etype <;> decide

lemma filter_close_prog (s : DetState) (now : Int) :
    (detect_program_changes s now).2.filter isTrafficCloseEvent = [] := by
  rw [List.filter_eq_nil_iff]
  intro e he
  have h := detect_program_changes_types s now e he
  simp [isTrafficCloseEvent, h]

lemma no_close_events_when_closed (s : DetState) (now : Int)
    (hst : s.current_traffic_start_time = none) :
    (detect_traffic_events s now).2.filter isTrafficCloseEvent = [] := by
  rcases detect_traffic_master s now with
    h | ⟨b, _, _, h⟩ | ⟨_, _, _, h⟩ | ⟨_, _, _, _, h⟩ | ⟨_, _, _, _, h⟩
      | ⟨_, _, _, h⟩ | ⟨t0, _, _, hst2, h⟩
  all_goals rw [h]
  all_goals try rfl
  rw [hst] at hst2
  exact absurd hst2 (by simp)

/-- C3 as frozen is refuted: there is no generation counter, and the timeout
callback run after a legitimate End is not a no-op — on the post-End state
of the run `ta false, ta true, ta false` it still emits a
`TRAFFIC_TIMEOUT`, even though the episode is already closed. -/
theorem claim_c3_counterexample :
    ((emergency_timeout (runDetector initState
        [(0, [("ta", RVal.vBool false)]), (1000, [("ta", RVal.vBool true)]),
         (20000, [("ta", RVal.vBool false)])]).1 601000).2.map Event.etype
      = [EventType.traffic_timeout])
    ∧ ((runDetector initState
        [(0, [("ta", RVal.vBool false)]), (1000, [("ta", RVal.vBool true)]),
         (20000, [("ta", RVal.vBool false)])]).1.current_traffic_start_time
        = none) :=
  ⟨rfl, rfl⟩

/-- C3 amended: in the race-free driver, a due watchdog fires as the
emergency timeout, which emits exactly one synthetic filtered Timeout and
closes the episode exactly as an End does; after a Timeout the episode
state is cleared, so a subsequent tick can emit no further End or Timeout.
The cancellation mechanism is clearing the timer on End, not a generation
counter, and a timeout callback invoked after an End still emits. -/
theorem claim_c3_amended (s : DetState) (now expiry : Int)
    (ht : s.timeout_timer = some expiry) (hdue : expiry ≤ now) :
    (fire_timer_if_due s now = emergency_timeout s expiry) ∧
    ((emergency_timeout s expiry).2
      = [{ etype := .traffic_timeout, event_time := expiry, filtered := true,
           filter_reasons := [.emergencyTimeout max_traffic_duration_seconds],
           duration_seconds := some max_traffic_duration_seconds }]) ∧
    ((emergency_timeout s expiry).1.current_traffic_start_time = none) ∧
    ((emergency_timeout s expiry).1.timeout_timer = none) ∧
    ((emergency_timeout s expiry).1.rds_timestamps_during_event = []) ∧
    ((emergency_timeout s expiry).1.current_event_type = .traffic) ∧
    (∀ now2 snap2,
      (process_rds_data (emergency_timeout s expiry).1 now2 snap2).2.filter
        isTrafficCloseEvent = []) := by
  refine ⟨fire_timer_due s now expiry ht hdue, ?_, ?_, ?_, ?_, ?_, ?_⟩
  · rw [emergency_timeout_eq]
  · rw [emergency_timeout_eq]
  · rw [emergency_timeout_eq]
  · rw [emergency_timeout_eq]
  · rw [emergency_timeout_eq]
  · intro now2 snap2
    by_cases hs : snap2 = []
    · subst hs
      unfold process_rds_data
      simp
    · rw [process_rds_data_cons _ now2 snap2 hs]
      have hclosed : (recordTimestamps
          (mergedState (emergency_timeout s expiry).1 snap2) now2).current_traffic_start_time
          = none := by
        rw [(recordTimestamps_core _ _).2.2.1]
        show (emergency_timeout s expiry).1.current_traffic_start_time = none
        rw [emergency_timeout_eq]
      simp only [List.filter_append, filter_close_vma, filter_close_prog,
        no_close_events_when_closed _ now2 hclosed, List.append_nil]

/-- Concrete instantiation of `claim_c3_amended` on a state whose watchdog
is due. -/
theorem claim_c3_amended_witness :
    fire_timer_if_due
        { initState with current_traffic_start_time := some 1000,
                         timeout_timer := some 601000,
                         rds_timestamps_during_event := [1000],
                         last_valid_ta_state := some true } 700000
      = emergency_timeout
        { initState with current_traffic_start_time := some 1000,
                         timeout_timer := some 601000,
                         rds_timestamps_during_event := [1000],
                         last_valid_ta_state := some true } 601000 :=
  (claim_c3_amended _ 700000 601000 rfl (by decide)).1

lemma DetInv_congr (s s' : DetState)
    (h1 : s'.timeout_timer = s.timeout_timer)
    (h2 : s'.current_traffic_start_time = s.current_traffic_start_time)
    (h3 : s'.last_valid_ta_state = s.last_valid_ta_state)
    (hInv : DetInv s) : DetInv s' := by
  unfold DetInv at hInv ⊢
  rw [h1, h2, h3]
  exact hInv

lemma countCloses_append (a b : List Event) :
    countCloses (a ++ b) = countCloses a + countCloses b := by
  unfold countCloses
  rw [List.filter_append, List.length_append]

lemma closed_timer_none (s : DetState) (hInv : DetInv s)
    (h : s.current_traffic_start_time = none) : s.timeout_timer = none := by
  have h1 := hInv.1
  rw [h] at h1
  simp only [Option.isSome_none] at h1
  exact Option.not_isSome_iff_eq_none.mp (by rw [h1]; simp)

lemma open_of_timer_some (s : DetState) (hInv : DetInv s) (e : Int)
    (h : s.timeout_timer = some e) : s.current_traffic_start_time.isSome = true := by
  have h1 := hInv.1
  rw [h] at h1
  exact h1.symm.trans rfl |>.symm ▸ rfl

/-- The per-tick trichotomy of `_detect_traffic_events` under the
invariant: the episode fields are untouched, or a fresh episode is opened
with its watchdog armed, or the open episode is closed with exactly one
closing event. -/
lemma detect_traffic_step (s : DetState) (now : Int) (hInv : DetInv s) :
    DetInv (detect_traffic_events s now).1 ∧
    ( ((detect_traffic_events s now).1.current_traffic_start_time
          = s.current_traffic_start_time ∧
       (detect_traffic_events s now).1.timeout_timer = s.timeout_timer ∧
       countCloses (detect_traffic_events s now).2 = 0)
      ∨ (s.current_traffic_start_time = none ∧
         (detect_traffic_events s now).1.current_traffic_start_time = some now ∧
         (detect_traffic_events s now).1.timeout_timer
            = some (now + max_traffic_duration_seconds) ∧
         countCloses (detect_traffic_events s now).2 = 0)
      ∨ (∃ t0, s.current_traffic_start_time = some t0 ∧
         (detect_traffic_events s now).1.current_traffic_start_time = none ∧
         (detect_traffic_events s now).1.timeout_timer = none ∧
         countCloses (detect_traffic_events s now).2 = 1) ) := by
  rcases detect_traffic_master s now with
    h | ⟨b, hta, hlv, h⟩ | ⟨hta, hlv, hpty, h⟩ | ⟨hta, hlv, hpty, hdeb, h⟩
      | ⟨hta, hlv, hpty, hdeb, h⟩ | ⟨hta, hlv, hst, h⟩ | ⟨t0, hta, hlv, hst, h⟩
  · rw [h]
    exact ⟨hInv, Or.inl ⟨rfl, rfl, rfl⟩⟩
  · rw [h]
    refine ⟨⟨hInv.1, hInv.2.1, ?_⟩, Or.inl ⟨rfl, rfl, rfl⟩⟩
    intro hopen
    exact absurd (hInv.2.2 hopen) (by rw [hlv]; simp)
  · rw [h]
    exact ⟨⟨hInv.1, hInv.2.1, fun _ => rfl⟩, Or.inl ⟨rfl, rfl, rfl⟩⟩
  · have hcl : s.current_traffic_start_time = none := by
      cases hcl : s.current_traffic_start_time with
      | none => rfl
      | some t =>
          have := hInv.2.2 (by rw [hcl]; rfl)
          rw [hlv] at this
          exact absurd this (by simp)
    rw [h]
    refine ⟨⟨rfl, ?_, fun _ => rfl⟩, Or.inr (Or.inl ⟨hcl, rfl, rfl, rfl⟩)⟩
    intro t ht
    simp only [openedState] at ht ⊢
    rw [Option.some_inj.mp ht]
  · have hcl : s.current_traffic_start_time = none := by
      cases hcl : s.current_traffic_start_time with
      | none => rfl
      | some t =>
          have := hInv.2.2 (by rw [hcl]; rfl)
          rw [hlv] at this
          exact absurd this (by simp)
    rw [h]
    refine ⟨⟨rfl, ?_, fun _ => rfl⟩, Or.inr (Or.inl ⟨hcl, rfl, rfl, rfl⟩)⟩
    intro t ht
    simp only [bumpState, openedState] at ht ⊢
    rw [Option.some_inj.mp ht]
  · have htimer : s.timeout_timer = none := closed_timer_none s hInv hst
    rw [h]
    refine ⟨⟨rfl, ?_, ?_⟩, Or.inl ⟨?_, ?_, rfl⟩⟩
    · intro t ht
      simp only [resetState] at ht
      exact absurd ht (by simp)
    · intro hopen
      simp only [resetState] at hopen
      exact absurd hopen (by simp)
    · simp only [resetState]
      rw [hst]
    · simp only [resetState]
      rw [htimer]
  · rw [h]
    refine ⟨⟨rfl, ?_, ?_⟩, Or.inr (Or.inr ⟨t0, hst, rfl, rfl, rfl⟩)⟩
    · intro t ht
      simp only [endedState] at ht
      exact absurd ht (by simp)
    · intro hopen
      simp only [endedState] at hopen
      exact absurd hopen (by simp)

lemma mergedState_core (s : DetState) (snap : Snap) :
    ((mergedState s snap).last_event_time = s.last_event_time) ∧
    ((mergedState s snap).last_valid_ta_state = s.last_valid_ta_state) ∧
    ((mergedState s snap).current_traffic_start_time
       = s.current_traffic_start_time) ∧
    ((mergedState s snap).current_event_type = s.current_event_type) ∧
    ((mergedState s snap).timeout_timer = s.timeout_timer) :=
  ⟨rfl, rfl, rfl, rfl, rfl⟩

/-- The per-tick trichotomy of `process_rds_data` under the invariant. -/
lemma process_step (s : DetState) (now : Int) (snap : Snap) (hInv : DetInv s) :
    DetInv (process_rds_data s now snap).1 ∧
    ( ((process_rds_data s now snap).1.current_traffic_start_time
          = s.current_traffic_start_time ∧
       (process_rds_data s now snap).1.timeout_timer = s.timeout_timer ∧
       countCloses (process_rds_data s now snap).2 = 0)
      ∨ (s.current_traffic_start_time = none ∧
         (process_rds_data s now snap).1.current_traffic_start_time = some now ∧
         (process_rds_data s now snap).1.timeout_timer
            = some (now + max_traffic_duration_seconds) ∧
         countCloses (process_rds_data s now snap).2 = 0)
      ∨ (∃ t0, s.current_traffic_start_time = some t0 ∧
         (process_rds_data s now snap).1.current_traffic_start_time = none ∧
         (process_rds_data s now snap).1.timeout_timer = none ∧
         countCloses (process_rds_data s now snap).2 = 1) ) := by
  by_cases hs : snap = []
  · subst hs
    unfold process_rds_data
    simp only [if_pos rfl]
    exact ⟨hInv, Or.inl ⟨rfl, rfl, rfl⟩⟩
  · rw [process_rds_data_cons s now snap hs]
    have hInv1 : DetInv (recordTimestamps (mergedState s snap) now) := by
      refine DetInv_congr s _ ?_ ?_ ?_ hInv
      · rw [(recordTimestamps_core _ _).2.2.2.2]
        exact (mergedState_core s snap).2.2.2.2
      · rw [(recordTimestamps_core _ _).2.2.1]
        exact (mergedState_core s snap).2.2.1
      · rw [(recordTimestamps_core _ _).2.1]
        exact (mergedState_core s snap).2.1
    have hs1st : (recordTimestamps (mergedState s snap) now).current_traffic_start_time
        = s.current_traffic_start_time := by
      rw [(recordTimestamps_core _ _).2.2.1]
      exact (mergedState_core s snap).2.2.1
    have hs1tm : (recordTimestamps (mergedState s snap) now).timeout_timer
        = s.timeout_timer := by
      rw [(recordTimestamps_core _ _).2.2.2.2]
      exact (mergedState_core s snap).2.2.2.2
    obtain ⟨hInvT, htri⟩ :=
      detect_traffic_step (recordTimestamps (mergedState s snap) now) now hInv1
    set sT := (detect_traffic_events (recordTimestamps (mergedState s snap) now) now).1
      with hsT
    have hVst := (detect_vma_events_core sT now).2.2.2.1
    have hVtm := (detect_vma_events_core sT now).2.2.2.2.1
    have hVlv := (detect_vma_events_core sT now).2.2.1
    set sV := (detect_vma_events sT now).1 with hsV
    have hPst := (detect_program_changes_core sV now).2.2.2.1
    have hPtm := (detect_program_changes_core sV now).2.2.2.2.1
    have hPlv := (detect_program_changes_core sV now).2.2.1
    have hInvFinal : DetInv (detect_program_changes sV now).1 := by
      refine DetInv_congr sT _ ?_ ?_ ?_ hInvT
      · rw [hPtm, hVtm]
      · rw [hPst, hVst]
      · rw [hPlv, hVlv]
    have hCl : countCloses
        ((detect_traffic_events (recordTimestamps (mergedState s snap) now) now).2
          ++ (detect_vma_events sT now).2
          ++ (detect_program_changes sV now).2)
        = countCloses
            (detect_traffic_events (recordTimestamps (mergedState s snap) now) now).2 := by
      rw [countCloses_append, countCloses_append]
      unfold countCloses
      rw [filter_close_vma, filter_close_prog]
      simp
    refine ⟨hInvFinal, ?_⟩
    rcases htri with ⟨h1, h2, h3⟩ | ⟨h0, h1, h2, h3⟩ | ⟨t0, h0, h1, h2, h3⟩
    · exact Or.inl ⟨by rw [hPst, hVst, h1, hs1st],
        by rw [hPtm, hVtm, h2, hs1tm], by rw [hCl]; exact h3⟩
    · exact Or.inr (Or.inl ⟨by rw [← hs1st]; exact h0,
        by rw [hPst, hVst, h1], by rw [hPtm, hVtm, h2],
        by rw [hCl]; exact h3⟩)
    · exact Or.inr (Or.inr ⟨t0, by rw [← hs1st]; exact h0,
        by rw [hPst, hVst, h1], by rw [hPtm, hVtm, h2],
        by rw [hCl]; exact h3⟩)

/-- The watchdog side of a driver step: either nothing fires, or the due
timer closes the open episode with exactly one closing event. -/
lemma fire_step (s : DetState) (now : Int) (hInv : DetInv s) :
    DetInv (fire_timer_if_due s now).1 ∧
    ( (fire_timer_if_due s now = (s, []))
      ∨ (s.current_traffic_start_time.isSome = true ∧
         (fire_timer_if_due s now).1.current_traffic_start_time = none ∧
         (fire_timer_if_due s now).1.timeout_timer = none ∧
         countCloses (fire_timer_if_due s now).2 = 1) ) := by
  cases ht : s.timeout_timer with
  | none =>
      rw [fire_timer_none s now ht]
      exact ⟨hInv, Or.inl rfl⟩
  | some e =>
      by_cases hdue : e ≤ now
      · rw [fire_timer_due s now e ht hdue, emergency_timeout_eq]
        refine ⟨⟨rfl, ?_, ?_⟩, Or.inr ⟨?_, rfl, rfl, rfl⟩⟩
        · intro t htt
          exact absurd htt (by simp)
        · intro hopen
          exact absurd hopen (by simp)
        · have h1 := hInv.1
          rw [ht] at h1
          exact h1.symm.trans rfl
      · rw [fire_timer_not_due s now e ht hdue]
        exact ⟨hInv, Or.inl rfl⟩

lemma stepInput_eq (s : DetState) (inp : Int × Snap) :
    stepInput s inp
      = ((process_rds_data (fire_timer_if_due s inp.1).1 inp.1 inp.2).1,
         (fire_timer_if_due s inp.1).2
           ++ (process_rds_data (fire_timer_if_due s inp.1).1 inp.1 inp.2).2) := rfl

lemma runDetector_cons (s : DetState) (inp : Int × Snap) (rest : List (Int × Snap)) :
    runDetector s (inp :: rest)
      = ((runDetector (stepInput s inp).1 rest).1,
         (stepInput s inp).2 ++ (runDetector (stepInput s inp).1 rest).2) := rfl

lemma openBit_none (s : DetState) (h : s.current_traffic_start_time = none) :
    openBit s = 0 := by
  unfold openBit
  rw [h]
  rfl

lemma openBit_some (s : DetState) (t : Int)
    (h : s.current_traffic_start_time = some t) : openBit s = 1 := by
  unfold openBit
  rw [h]
  rfl

/-- One driver step preserves the invariant, balances closing events against
episode openings, and bounds the open start time by the step time. -/
lemma step_balance (s : DetState) (inp : Int × Snap) (hInv : DetInv s)
    (hLt : ∀ t, s.current_traffic_start_time = some t → t < inp.1) :
    DetInv (stepInput s inp).1 ∧
    (countCloses (stepInput s inp).2 + openBit (stepInput s inp).1
      = openBit s + (if openedAt s (stepInput s inp).1 inp.1 then 1 else 0)) ∧
    (∀ t, (stepInput s inp).1.current_traffic_start_time = some t → t ≤ inp.1) := by
  obtain ⟨hInvM, hfire⟩ := fire_step s inp.1 hInv
  obtain ⟨hInvF, htri⟩ := process_step (fire_timer_if_due s inp.1).1 inp.1 inp.2 hInvM
  rw [stepInput_eq]
  dsimp only
  have hfireFacts :
      ((fire_timer_if_due s inp.1).1.current_traffic_start_time
          = s.current_traffic_start_time ∧
        countCloses (fire_timer_if_due s inp.1).2 = 0)
      ∨ (s.current_traffic_start_time.isSome = true ∧
        (fire_timer_if_due s inp.1).1.current_traffic_start_time = none ∧
        countCloses (fire_timer_if_due s inp.1).2 = 1) := by
    rcases hfire with hf | ⟨hfo, hf1, hf2, hf3⟩
    · exact Or.inl ⟨by rw [hf], by rw [hf]; rfl⟩
    · exact Or.inr ⟨hfo, hf1, hf3⟩
  refine ⟨hInvF, ?_, ?_⟩
  · rw [countCloses_append]
    rcases hfireFacts with ⟨hm, hc⟩ | ⟨hfo, hm, hc⟩
    · -- timer did not fire: mid start = s start
      rcases htri with ⟨h1, h2, h3⟩ | ⟨h0, h1, h2, h3⟩ | ⟨t0, h0, h1, h2, h3⟩
      · have hss : (process_rds_data (fire_timer_if_due s inp.1).1 inp.1 inp.2).1.current_traffic_start_time
            = s.current_traffic_start_time := by rw [h1, hm]
        have hopened : openedAt s (process_rds_data (fire_timer_if_due s inp.1).1 inp.1 inp.2).1 inp.1 = false := by
          unfold openedAt
          rw [hss]
          cases hcs : s.current_traffic_start_time with
          | none => simp
          | some t =>
              have : t ≠ inp.1 := ne_of_lt (hLt t hcs)
              simp [this]
        rw [hopened, hc, h3]
        unfold openBit
        rw [hss]
        simp
      · rw [hm] at h0
        have hopened : openedAt s (process_rds_data (fire_timer_if_due s inp.1).1 inp.1 inp.2).1 inp.1 = true := by
          unfold openedAt
          rw [h1, h0]
          simp
        rw [hopened, hc, h3, openBit_none s h0,
          openBit_some (process_rds_data (fire_timer_if_due s inp.1).1 inp.1 inp.2).1 inp.1 h1]
        decide
      · rw [hm] at h0
        have hopened : openedAt s (process_rds_data (fire_timer_if_due s inp.1).1 inp.1 inp.2).1 inp.1 = false := by
          unfold openedAt
          rw [h1]
          simp
        rw [hopened, hc, h3, openBit_some s t0 h0,
          openBit_none (process_rds_data (fire_timer_if_due s inp.1).1 inp.1 inp.2).1 h1]
        decide
    · -- timer fired: mid start = none, one close from the watchdog
      obtain ⟨ts, hts⟩ := Option.isSome_iff_exists.mp hfo
      rcases htri with ⟨h1, h2, h3⟩ | ⟨h0, h1, h2, h3⟩ | ⟨t0, h0, h1, h2, h3⟩
      · have hss : (process_rds_data (fire_timer_if_due s inp.1).1 inp.1 inp.2).1.current_traffic_start_time
            = none := by rw [h1, hm]
        have hopened : openedAt s (process_rds_data (fire_timer_if_due s inp.1).1 inp.1 inp.2).1 inp.1 = false := by
          unfold openedAt
          rw [hss]
          simp
        rw [hopened, hc, h3, openBit_some s ts hts,
          openBit_none (process_rds_data (fire_timer_if_due s inp.1).1 inp.1 inp.2).1 hss]
        decide
      · have hopened : openedAt s (process_rds_data (fire_timer_if_due s inp.1).1 inp.1 inp.2).1 inp.1 = true := by
          unfold openedAt
          rw [h1, hts]
          have : ts ≠ inp.1 := ne_of_lt (hLt ts hts)
          simp [this]
        rw [hopened, hc, h3, openBit_some s ts hts,
          openBit_some (process_rds_data (fire_timer_if_due s inp.1).1 inp.1 inp.2).1 inp.1 h1]
        decide
      · rw [hm] at h0
        exact absurd h0 (by simp)
  · intro t ht
    rcases hfireFacts with ⟨hm, hc⟩ | ⟨hfo, hm, hc⟩ <;>
      rcases htri with ⟨h1, h2, h3⟩ | ⟨h0, h1, h2, h3⟩ | ⟨t0, h0, h1, h2, h3⟩
    · rw [h1, hm] at ht
      exact le_of_lt (hLt t ht)
    · rw [h1] at ht
      rw [Option.some_inj.mp ht]
    · rw [h1] at ht
      exact absurd ht (by simp)
    · rw [h1, hm] at ht
      exact absurd ht (by simp)
    · rw [h1] at ht
      rw [Option.some_inj.mp ht]
    · rw [hm] at h0
      exact absurd h0 (by simp)

lemma step_provenance (s : DetState) (inp : Int × Snap) (hInv : DetInv s) :
    DetInv (stepInput s inp).1 ∧
    (∀ t, (stepInput s inp).1.current_traffic_start_time = some t →
        t = inp.1 ∨ s.current_traffic_start_time = some t) := by
  obtain ⟨hInvM, hfire⟩ := fire_step s inp.1 hInv
  obtain ⟨hInvF, htri⟩ := process_step (fire_timer_if_due s inp.1).1 inp.1 inp.2 hInvM
  rw [stepInput_eq]
  dsimp only
  refine ⟨hInvF, ?_⟩
  intro t ht
  rcases htri with ⟨h1, _, _⟩ | ⟨_, h1, _, _⟩ | ⟨t0, _, h1, _, _⟩
  · rw [h1] at ht
    rcases hfire with hf | ⟨_, hf1, _, _⟩
    · rw [hf] at ht
      exact Or.inr ht
    · rw [hf1] at ht
      exact absurd ht (by simp)
  · rw [h1] at ht
    exact Or.inl (Option.some_inj.mp ht).symm
  · rw [h1] at ht
    exact absurd ht (by simp)

lemma run_inv : ∀ (inputs : List (Int × Snap)) (s : DetState), DetInv s →
    DetInv (runDetector s inputs).1 ∧
    (∀ t, (runDetector s inputs).1.current_traffic_start_time = some t →
      (∃ p ∈ inputs, t = p.1) ∨ s.current_traffic_start_time = some t)
  | [], s, hInv => ⟨hInv, fun _ ht => Or.inr ht⟩
  | inp :: rest, s, hInv => by
      obtain ⟨hInv2, hprov⟩ := step_provenance s inp hInv
      obtain ⟨hInvF, hprovR⟩ := run_inv rest (stepInput s inp).1 hInv2
      rw [runDetector_cons]
      refine ⟨hInvF, ?_⟩
      intro t ht
      rcases hprovR t ht with ⟨p, hp, hpt⟩ | hmid
      · exact Or.inl ⟨p, List.mem_cons_of_mem _ hp, hpt⟩
      · rcases hprov t hmid with h | h
        · exact Or.inl ⟨inp, List.mem_cons_self _ _, h⟩
        · exact Or.inr h

lemma run_balance : ∀ (inputs : List (Int × Snap)) (s : DetState), DetInv s →
    List.Chain' (· < ·) (inputs.map Prod.fst) →
    (∀ t, s.current_traffic_start_time = some t → ∀ p ∈ inputs, t < p.1) →
    DetInv (runDetector s inputs).1 ∧
    countCloses (runDetector s inputs).2 + openBit (runDetector s inputs).1
      = openBit s + countOpenings s inputs
  | [], s, hInv, _, _ => ⟨hInv, by simp [runDetector, countOpenings, countCloses]⟩
  | inp :: rest, s, hInv, hchain, hLt => by
      obtain ⟨hInv2, hbal, hbound⟩ := step_balance s inp hInv
        (fun t ht => hLt t ht inp (List.mem_cons_self _ _))
      have hchain2 : List.Chain' (· < ·) (rest.map Prod.fst) := by
        rw [List.map_cons] at hchain
        exact hchain.tail
      have hhead : ∀ p ∈ rest, inp.1 < p.1 := by
        rw [List.map_cons, List.chain'_iff_pairwise] at hchain
        intro p hp
        exact List.rel_of_pairwise_cons hchain (List.mem_map_of_mem _ hp)
      have hLt2 : ∀ t, (stepInput s inp).1.current_traffic_start_time = some t →
          ∀ p ∈ rest, t < p.1 :=
        fun t ht p hp => lt_of_le_of_lt (hbound t ht) (hhead p hp)
      obtain ⟨hInvF, hbalR⟩ := run_balance rest (stepInput s inp).1 hInv2 hchain2 hLt2
      rw [runDetector_cons]
      refine ⟨hInvF, ?_⟩
      show countCloses ((stepInput s inp).2 ++ (runDetector (stepInput s inp).1 rest).2)
          + openBit (runDetector (stepInput s inp).1 rest).1
        = openBit s + countOpenings s (inp :: rest)
      rw [countCloses_append]
      have hopen : countOpenings s (inp :: rest)
          = (if openedAt s (stepInput s inp).1 inp.1 then 1 else 0)
            + countOpenings (stepInput s inp).1 rest := rfl
      rw [hopen]
      omega

lemma detect_traffic_start_post (s : DetState) (now : Int)
    (hmem : EventType.traffic_start ∈ (detect_traffic_events s now).2.map Event.etype) :
    (detect_traffic_events s now).1.current_traffic_start_time = some now ∧
    (detect_traffic_events s now).1.timeout_timer
      = some (now + max_traffic_duration_seconds) := by
  rcases detect_traffic_master s now with
    h | ⟨b, _, _, h⟩ | ⟨_, _, _, h⟩ | ⟨_, _, _, _, h⟩ | ⟨_, _, _, _, h⟩
      | ⟨_, _, _, h⟩ | ⟨t0, _, _, _, h⟩ <;> rw [h] at hmem ⊢
  · simp at hmem
  · simp at hmem
  · simp at hmem
  · simp at hmem
  · exact ⟨rfl, rfl⟩
  · simp at hmem
  · simp [endEventOf] at hmem

lemma runAndFlush_eq (inputs : List (Int × Snap)) (T : Int) :
    runAndFlush inputs T
      = ((fire_timer_if_due (runDetector initState inputs).1 T).1,
         (runDetector initState inputs).2
           ++ (fire_timer_if_due (runDetector initState inputs).1 T).2) := rfl

/-- C1 as frozen is refuted for the VMA classification: a `VMA_START` is
emitted for `pty = 31`, yet no ActiveEpisode is opened and no watchdog is
armed, and even letting the clock run far past the maximum duration the
stream produces no matching End or Timeout. -/
theorem claim_c1_counterexample :
    ((runAndFlush [(0, [("pty", RVal.vInt 31)])] 100000000).2.map Event.etype
      = [EventType.vma_start])
    ∧ ((runDetector initState [(0, [("pty", RVal.vInt 31)])]).1.timeout_timer
        = none)
    ∧ ((runDetector initState
        [(0, [("pty", RVal.vInt 31)])]).1.current_traffic_start_time = none) :=
  ⟨rfl, rfl, rfl⟩

/-- C1 amended: for the traffic (TA-driven) classification the lifecycle
holds — a tick that emits `TRAFFIC_START` leaves an open episode with the
single-shot watchdog armed at `start + 600 s`; once driver time passes the
last input by the maximum duration no episode remains open; and over any
strictly time-ordered run, the number of emitted Ends plus Timeouts equals
exactly the number of episodes opened.  VMA edge handling, by contrast,
opens no episode and arms no watchdog. -/
theorem claim_c1_amended :
    (∀ (s : DetState) (now : Int) (snap : Snap),
      EventType.traffic_start ∈ (process_rds_data s now snap).2.map Event.etype →
      (process_rds_data s now snap).1.current_traffic_start_time = some now ∧
      (process_rds_data s now snap).1.timeout_timer
        = some (now + max_traffic_duration_seconds)) ∧
    (∀ (inputs : List (Int × Snap)) (B T : Int),
      (∀ p ∈ inputs, p.1 ≤ B) → B + max_traffic_duration_seconds ≤ T →
      (runAndFlush inputs T).1.current_traffic_start_time = none) ∧
    (∀ (inputs : List (Int × Snap)) (B T : Int),
      (∀ p ∈ inputs, p.1 ≤ B) → B + max_traffic_duration_seconds ≤ T →
      List.Chain' (· < ·) (inputs.map Prod.fst) →
      countCloses (runAndFlush inputs T).2 = countOpenings initState inputs) ∧
    (∀ (s : DetState) (now : Int),
      (detect_vma_events s now).1.current_traffic_start_time
          = s.current_traffic_start_time ∧
      (detect_vma_events s now).1.timeout_timer = s.timeout_timer) := by
  refine ⟨?_, ?_, ?_, ?_⟩
  · intro s now snap hmem
    by_cases hs : snap = []
    · subst hs
      unfold process_rds_data at hmem
      simp at hmem
    · rw [process_rds_data_cons s now snap hs] at hmem ⊢
      rw [List.map_append, List.map_append] at hmem
      have hPst := (detect_program_changes_core (detect_vma_events
        (detect_traffic_events (recordTimestamps (mergedState s snap) now) now).1 now).1
        now).2.2.2.1
      have hPtm := (detect_program_changes_core (detect_vma_events
        (detect_traffic_events (recordTimestamps (mergedState s snap) now) now).1 now).1
        now).2.2.2.2.1
      have hVst := (detect_vma_events_core (detect_traffic_events
        (recordTimestamps (mergedState s snap) now) now).1 now).2.2.2.1
      have hVtm := (detect_vma_events_core (detect_traffic_events
        (recordTimestamps (mergedState s snap) now) now).1 now).2.2.2.2.1
      rcases List.mem_append.mp hmem with h12 | h3
      · rcases List.mem_append.mp h12 with h1 | h2
        · have hpost := detect_traffic_start_post _ now h1
          exact ⟨by rw [hPst, hVst, hpost.1], by rw [hPtm, hVtm, hpost.2]⟩
        · obtain ⟨e, he, hee⟩ := List.mem_map.mp h2
          have := detect_vma_events_types _ now e he
          rw [hee] at this
          exact absurd this (by decide)
      · obtain ⟨e, he, hee⟩ := List.mem_map.mp h3
        have := detect_program_changes_types _ now e he
        rw [hee] at this
        exact absurd this (by decide)
  · intro inputs B T hB hT
    obtain ⟨hInvR, hprov⟩ := run_inv inputs initState DetInv_initState
    rw [runAndFlush_eq]
    dsimp only
    cases hst : (runDetector initState inputs).1.current_traffic_start_time with
    | none =>
        have htm := closed_timer_none _ hInvR hst
        rw [fire_timer_none _ T htm]
        exact hst
    | some t =>
        have htm := hInvR.2.1 t hst
        have hboundT : t ≤ B := by
          rcases hprov t hst with ⟨p, hp, hpt⟩ | hcontr
          · rw [hpt]
            exact hB p hp
          · simp [initState] at hcontr
        have hdue : t + max_traffic_duration_seconds ≤ T := by omega
        rw [fire_timer_due _ T _ htm hdue, emergency_timeout_eq]
  · intro inputs B T hB hT hchain
    obtain ⟨hInvR0, hbal⟩ := run_balance inputs initState DetInv_initState hchain
      (by intro t ht; simp [initState] at ht)
    obtain ⟨hInvR, hprov⟩ := run_inv inputs initState DetInv_initState
    rw [runAndFlush_eq]
    dsimp only
    rw [countCloses_append]
    cases hst : (runDetector initState inputs).1.current_traffic_start_time with
    | none =>
        have htm := closed_timer_none _ hInvR hst
        rw [fire_timer_none _ T htm]
        rw [openBit_none _ hst, openBit_none initState rfl] at hbal
        show countCloses (runDetector initState inputs).2 + countCloses ([] : List Event)
            = countOpenings initState inputs
        have h0 : countCloses ([] : List Event) = 0 := rfl
        omega
    | some t =>
        have htm := hInvR.2.1 t hst
        have hboundT : t ≤ B := by
          rcases hprov t hst with ⟨p, hp, hpt⟩ | hcontr
          · rw [hpt]
            exact hB p hp
          · simp [initState] at hcontr
        have hdue : t + max_traffic_duration_seconds ≤ T := by omega
        rw [fire_timer_due _ T _ htm hdue]
        have hfl2 : (emergency_timeout (runDetector initState inputs).1
              (t + max_traffic_duration_seconds)).2
            = [{ etype := .traffic_timeout,
                 event_time := t + max_traffic_duration_seconds, filtered := true,
                 filter_reasons := [.emergencyTimeout max_traffic_duration_seconds],
                 duration_seconds := some max_traffic_duration_seconds }] := by
          rw [emergency_timeout_eq]
        rw [hfl2]
        rw [openBit_some _ t hst, openBit_none initState rfl] at hbal
        have hone : countCloses
            [{ etype := .traffic_timeout,
               event_time := t + max_traffic_duration_seconds, filtered := true,
               filter_reasons := [.emergencyTimeout max_traffic_duration_seconds],
               duration_seconds := some max_traffic_duration_seconds }] = 1 := rfl
        omega
  · intro s now
    exact ⟨(detect_vma_events_core s now).2.2.2.1,
      (detect_vma_events_core s now).2.2.2.2.1⟩

/-- Concrete instantiation of `claim_c1_amended`: a full open-then-close run,
flushed far past the watchdog bound, balances one opening against one End
and leaves no episode open. -/
theorem claim_c1_amended_witness :
    (countCloses (runAndFlush
        [(0, [("ta", RVal.vBool false)]), (1000, [("ta", RVal.vBool true)]),
         (20000, [("ta", RVal.vBool false)])] 1000000).2
      = countOpenings initState
        [(0, [("ta", RVal.vBool false)]), (1000, [("ta", RVal.vBool true)]),
         (20000, [("ta", RVal.vBool false)])])
    ∧ ((runAndFlush
        [(0, [("ta", RVal.vBool false)]), (1000, [("ta", RVal.vBool true)]),
         (20000, [("ta", RVal.vBool false)])] 1000000).1.current_traffic_start_time
        = none) :=
  ⟨claim_c1_amended.2.2.1
      [(0, [("ta", RVal.vBool false)]), (1000, [("ta", RVal.vBool true)]),
       (20000, [("ta", RVal.vBool false)])] 20000 1000000
      (by decide) (by decide)
      (List.chain'_cons.mpr ⟨by decide, List.chain'_cons.mpr
        ⟨by decide, List.chain'_singleton _⟩⟩),
   claim_c1_amended.2.1
      [(0, [("ta", RVal.vBool false)]), (1000, [("ta", RVal.vBool true)]),
       (20000, [("ta", RVal.vBool false)])] 20000 1000000
      (by decide) (by decide)⟩

end RdsVma

namespace RdsVma

lemma takeLast_eq_rtake {α : Type} (n : Nat) (l : List α) :
    takeLast n l = l.rtake n := rfl

lemma rtake_append_rtake {α : Type} (a b : List α) (n : Nat) :
    ((a.rtake n) ++ b).rtake n = (a ++ b).rtake n := by
  rw [List.rtake_eq_reverse_take_reverse ((a.rtake n) ++ b) n,
    List.rtake_eq_reverse_take_reverse (a ++ b) n]
  congr 1
  rw [List.reverse_append, List.reverse_append,
    List.rtake_eq_reverse_take_reverse a n, List.reverse_reverse,
    List.take_append_eq_append_take, List.take_append_eq_append_take,
    List.take_take, Nat.min_eq_left (Nat.sub_le n b.reverse.length)]

lemma ingest_chunk_fields (st : RecState) (chunk : List Nat) :
    ((ingest_chunk st chunk).audio_buffer
        = takeLast buffer_size (st.audio_buffer ++ chunk)) ∧
    ((ingest_chunk st chunk).is_recording = st.is_recording) ∧
    ((ingest_chunk st chunk).current_recording_file
        = st.current_recording_file) := by
  cases st with
  | mk buf rec file proc bytes nst =>
    unfold ingest_chunk
    dsimp only
    generalize takeLast buffer_size (buf ++ chunk) = B
    split
    · split <;> exact ⟨rfl, rfl, rfl⟩
    · exact ⟨rfl, rfl, rfl⟩

lemma ingest_chunk_sink (st : RecState) (chunk sink : List Nat)
    (h : st.is_recording = true) (hp : st.recording_process = some sink) :
    (ingest_chunk st chunk).recording_process = some (sink ++ chunk) := by
  cases st with
  | mk buf rec file proc bytes nst =>
    unfold ingest_chunk
    dsimp only
    generalize takeLast buffer_size (buf ++ chunk) = B
    dsimp only at h hp
    rw [h, hp]
    rfl

lemma ingestAll_buffer : ∀ (chunks : List (List Nat)) (st : RecState)
    (bytes : List Nat), st.audio_buffer = bytes.rtake buffer_size →
    (ingestAll st chunks).audio_buffer
      = (bytes ++ chunks.flatten).rtake buffer_size
  | [], st, bytes, h => by
      unfold ingestAll
      simpa using h
  | c :: cs, st, bytes, h => by
      have hstep : (ingest_chunk st c).audio_buffer
          = ((bytes ++ c)).rtake buffer_size := by
        rw [(ingest_chunk_fields st c).1, takeLast_eq_rtake, h,
          rtake_append_rtake]
      have := ingestAll_buffer cs (ingest_chunk st c) (bytes ++ c) hstep
      unfold ingestAll at this ⊢
      rw [List.foldl_cons, this, List.flatten_cons, List.append_assoc]

lemma ingestAll_sink : ∀ (chunks : List (List Nat)) (st : RecState)
    (sink : List Nat), st.is_recording = true →
    st.recording_process = some sink →
    (ingestAll st chunks).recording_process = some (sink ++ chunks.flatten)
  | [], st, sink, _, hp => by
      unfold ingestAll
      simpa using hp
  | c :: cs, st, sink, h, hp => by
      have hrec := (ingest_chunk_fields st c).2.1
      have := ingestAll_sink cs (ingest_chunk st c) (sink ++ c)
        (by rw [hrec, h]) (ingest_chunk_sink st c sink h hp)
      unfold ingestAll at this ⊢
      rw [List.foldl_cons, this, List.flatten_cons, List.append_assoc]

lemma ingestAll_is_recording : ∀ (chunks : List (List Nat)) (st : RecState),
    (ingestAll st chunks).is_recording = st.is_recording
  | [], st => rfl
  | c :: cs, st => by
      unfold ingestAll
      rw [List.foldl_cons]
      have := ingestAll_is_recording cs (ingest_chunk st c)
      unfold ingestAll at this
      rw [this, (ingest_chunk_fields st c).2.1]

lemma start_recording_ok (st : RecState) (et ts : String)
    (h : st.is_recording = false) :
    start_recording_internal st et ts true
      = ({ st with current_recording_file := some (get_audio_filename et ts),
                   recording_process := some st.audio_buffer,
                   is_recording := true,
                   recordings_started := st.recordings_started + 1 },
         [.spawned]) := by
  unfold start_recording_internal
  rw [h]
  simp

/-- C7: the pre-trigger buffer has fixed capacity sample-rate times
bytes-per-sample times pre-roll-seconds; after any ingestion sequence it
holds exactly the most recent `min(totalBytes, capacity)` bytes of the
concatenated input; at recording start the entire current buffer is handed
to the encoder input before any live chunk, so the bytes delivered to the
encoder are exactly the retained pre-roll tail followed by the live data. -/
theorem claim_c7 :
    (buffer_size = INPUT_SAMPLE_RATE * 2 * PRE_TRIGGER_BUFFER_SECONDS) ∧
    (∀ chunks : List (List Nat),
      (ingestAll recInit chunks).audio_buffer
        = (chunks.flatten).rtake buffer_size) ∧
    (∀ chunks : List (List Nat),
      (ingestAll recInit chunks).audio_buffer.length
        = min buffer_size (chunks.flatten).length) ∧
    (∀ (st : RecState) (et ts : String), st.is_recording = false →
      (start_recording_internal st et ts true).1.recording_process
        = some st.audio_buffer) ∧
    (∀ (pre live : List (List Nat)) (et ts : String),
      (ingestAll (start_recording_internal (ingestAll recInit pre) et ts
          true).1 live).recording_process
        = some ((pre.flatten).rtake buffer_size ++ live.flatten)) := by
  have hbuf : ∀ chunks : List (List Nat),
      (ingestAll recInit chunks).audio_buffer
        = (chunks.flatten).rtake buffer_size := by
    intro chunks
    have := ingestAll_buffer chunks recInit [] rfl
    simpa using this
  refine ⟨by decide, hbuf, ?_, ?_, ?_⟩
  · intro chunks
    rw [hbuf chunks]
    unfold List.rtake
    rw [List.length_drop]
    omega
  · intro st et ts h
    rw [start_recording_ok st et ts h]
  · intro pre live et ts
    have hidle : (ingestAll recInit pre).is_recording = false := by
      rw [ingestAll_is_recording]
      rfl
    rw [start_recording_ok _ et ts hidle]
    have hrec : ({ ingestAll recInit pre with
        current_recording_file := some (get_audio_filename et ts),
        recording_process := some (ingestAll recInit pre).audio_buffer,
        is_recording := true,
        recordings_started := (ingestAll recInit pre).recordings_started + 1 }
          : RecState).is_recording = true := by
      rw [show ({ ingestAll recInit pre with
        current_recording_file := some (get_audio_filename et ts),
        recording_process := some (ingestAll recInit pre).audio_buffer,
        is_recording := true,
        recordings_started :=
          (ingestAll recInit pre).recordings_started + 1 }
            : RecState).is_recording = true from rfl]
    rw [ingestAll_sink live _ (ingestAll recInit pre).audio_buffer hrec rfl,
      hbuf pre]

/-- Concrete instantiation of `claim_c7`: three pre-roll bytes ingested
before the trigger are handed to the encoder ahead of the two live bytes,
and a fresh idle recorder accepts a start with the whole buffer as input. -/
theorem claim_c7_witness :
    ((ingestAll (start_recording_internal (ingestAll recInit [[1, 2], [3]])
        "traffic_start" "20250101_120000" true).1 [[4, 5]]).recording_process
      = some ((([[1, 2], [3]] : List (List Nat)).flatten).rtake buffer_size
          ++ ([[4, 5]] : List (List Nat)).flatten)) ∧
    (recInit.is_recording = false ∧
      (start_recording_internal recInit "vma_start" "t" true).1.recording_process
        = some recInit.audio_buffer) :=
  ⟨claim_c7.2.2.2.2 [[1, 2], [3]] [[4, 5]] "traffic_start" "20250101_120000",
   rfl, claim_c7.2.2.2.1 recInit "vma_start" "t" rfl⟩

end RdsVma

namespace RdsVma

lemma start_recording_busy (st : RecState) (et ts : String) (ok : Bool)
    (h : st.is_recording = true) :
    start_recording_internal st et ts ok = (st, [.warnedAlreadyRecording]) := by
  unfold start_recording_internal
  rw [h]
  simp

lemma stop_recording_idle (st : RecState) (h : st.is_recording = false) :
    stop_recording_internal st = (st, [.warnedNotRecording]) := by
  unfold stop_recording_internal
  rw [h]
  simp

lemma start_recording_fail (st : RecState) (et ts : String)
    (h : st.is_recording = false) :
    start_recording_internal st et ts false
      = ({ st with current_recording_file := some (get_audio_filename et ts),
                   recording_process := none }, [.spawnError]) := by
  unfold start_recording_internal
  rw [h]
  simp

/-- C8 counterexample: a spawn failure on START does leave partial state.
Starting from the fresh idle recorder, the failed start leaves the recorder
not recording with no subprocess, but `current_recording_file` now holds the
attempted output path (the `except` handler resets only
`recording_process`), so the pipeline is not back in the pristine idle
state. -/
theorem claim_c8_counterexample :
    ((start_recording_internal recInit "traffic_start" "20250101_120000"
        false).1.is_recording = false) ∧
    ((start_recording_internal recInit "traffic_start" "20250101_120000"
        false).1.recording_process = none) ∧
    ((start_recording_internal recInit "traffic_start" "20250101_120000"
        false).1.current_recording_file
      = some (get_audio_filename "traffic_start" "20250101_120000")) ∧
    recInit.current_recording_file = none ∧
    (start_recording_internal recInit "traffic_start" "20250101_120000"
        false).1 ≠ recInit :=
  ⟨rfl, rfl, rfl, rfl, by decide⟩

/-- C8 amended: START while already recording and STOP while idle are warned
no-ops that change no state and spawn nothing; a subprocess is only ever
spawned from the idle state; a spawn failure leaves the recorder not
recording and with no subprocess handle and spawns nothing — but it retains
the attempted output path in `current_recording_file`. -/
theorem claim_c8_amended :
    (∀ (st : RecState) (et ts : String) (ok : Bool), st.is_recording = true →
      start_recording_internal st et ts ok = (st, [.warnedAlreadyRecording])) ∧
    (∀ st : RecState, st.is_recording = false →
      stop_recording_internal st = (st, [.warnedNotRecording])) ∧
    (∀ (st : RecState) (et ts : String) (ok : Bool),
      RecAction.spawned ∈ (start_recording_internal st et ts ok).2 →
      st.is_recording = false) ∧
    (∀ (st : RecState) (et ts : String), st.is_recording = false →
      (start_recording_internal st et ts false).1.is_recording = false ∧
      (start_recording_internal st et ts false).1.recording_process = none ∧
      (start_recording_internal st et ts false).2 = [.spawnError] ∧
      (start_recording_internal st et ts false).1.current_recording_file
        = some (get_audio_filename et ts)) := by
  refine ⟨start_recording_busy, stop_recording_idle, ?_, ?_⟩
  · intro st et ts ok hmem
    cases h : st.is_recording
    · rfl
    · rw [start_recording_busy st et ts ok h] at hmem
      simp at hmem
  · intro st et ts h
    rw [start_recording_fail st et ts h]
    exact ⟨h, rfl, rfl, rfl⟩

/-- Concrete instantiation of `claim_c8_amended`: the busy START and idle
STOP no-ops, and an idle spawn failure ending not recording. -/
theorem claim_c8_amended_witness :
    (start_recording_internal { recInit with is_recording := true }
        "vma_start" "20250101_120000" true
      = ({ recInit with is_recording := true }, [.warnedAlreadyRecording])) ∧
    (stop_recording_internal recInit = (recInit, [.warnedNotRecording])) ∧
    ((start_recording_internal recInit "traffic_start" "20250101_130000"
        false).1.is_recording = false) :=
  ⟨claim_c8_amended.1 { recInit with is_recording := true }
      "vma_start" "20250101_120000" true rfl,
   claim_c8_amended.2.1 recInit rfl,
   (claim_c8_amended.2.2.2 recInit "traffic_start" "20250101_130000" rfl).1⟩

lemma length_le_length_eraseP_succ {α : Type} (p : α → Bool) :
    ∀ l : List α, l.length ≤ (l.eraseP p).length + 1
  | [] => by simp
  | a :: l => by
      rw [List.eraseP_cons]
      have ih := length_le_length_eraseP_succ p l
      cases hpa : p a
      · simp only [cond_false, List.length_cons]
        omega
      · simp only [cond_true, List.length_cons]
        omega

lemma ctrl_stop_no_delete (cs : CtrlState) (fs : FileSys) (now : Int) :
    ctrl_stop_recording cs fs now false
      = ({ cs with recording_active := false }, fs, [.cmdStop]) := by
  unfold ctrl_stop_recording
  simp

lemma ctrl_stop_delete_tracked (cs : CtrlState) (fs : FileSys) (now : Int)
    (info : RecInfo) (h : cs.current_recording_info = some info) :
    ctrl_stop_recording cs fs now true
      = (let r := delete_current_recording
            { cs with recording_active := false } fs now
         (r.1, r.2.1, [.cmdStop, .sleepGrace] ++ r.2.2)) := by
  unfold ctrl_stop_recording
  have h1 : ({ cs with recording_active := false }
      : CtrlState).current_recording_info = some info := h
  rw [h1]
  simp

lemma handle_end_unfiltered (cs : CtrlState) (fs : FileSys) (now : Int)
    (tr : Bool) :
    handle_end_event cs fs now false tr
      = (match cs.current_recording_info with
         | some info =>
             if tr && fsExists fs info.expected_filename then
               ({ cs with recording_active := false }, fs,
                [.cmdStop, .transcribe info.expected_filename])
             else ({ cs with recording_active := false }, fs, [.cmdStop])
         | none => ({ cs with recording_active := false }, fs, [.cmdStop])) := by
  unfold handle_end_event
  rw [ctrl_stop_no_delete]
  cases h : cs.current_recording_info with
  | none => simp
  | some info =>
      cases htr : tr && fsExists fs info.expected_filename with
      | false => simp [htr]
      | true => simp [htr]

end RdsVma

namespace RdsVma

lemma delete_predicted (cs : CtrlState) (fs : FileSys) (now : Int)
    (info : RecInfo) (h : cs.current_recording_info = some info)
    (hex : fsExists fs info.expected_filename = true) :
    delete_current_recording cs fs now
      = ({ cs with current_recording_info := none },
         fsRemove fs info.expected_filename,
         [.deletedFile info.expected_filename]) := by
  unfold delete_current_recording
  rw [h]
  simp [hex]

lemma delete_fallback_hit (cs : CtrlState) (fs : FileSys) (now : Int)
    (info : RecInfo) (f : String × Int)
    (h : cs.current_recording_info = some info)
    (hex : fsExists fs info.expected_filename = false)
    (hfind : (fs.filter
        (fun g => matchesGlob info.event_type info.timestamp g.1)).find?
          (fun g => decide (now - 30000 < g.2)) = some f) :
    delete_current_recording cs fs now
      = ({ cs with current_recording_info := none },
         fsRemove fs f.1, [.deletedFile f.1]) := by
  unfold delete_current_recording
  rw [h]
  simp only [hex, Bool.false_eq_true, if_false]
  rw [hfind]

lemma delete_fallback_miss (cs : CtrlState) (fs : FileSys) (now : Int)
    (info : RecInfo)
    (h : cs.current_recording_info = some info)
    (hex : fsExists fs info.expected_filename = false)
    (hfind : (fs.filter
        (fun g => matchesGlob info.event_type info.timestamp g.1)).find?
          (fun g => decide (now - 30000 < g.2)) = none) :
    delete_current_recording cs fs now = (cs, fs, []) := by
  unfold delete_current_recording
  rw [h]
  simp only [hex, Bool.false_eq_true, if_false]
  rw [hfind]

lemma ctrl_stop_delete_untracked (cs : CtrlState) (fs : FileSys) (now : Int)
    (h : cs.current_recording_info = none) :
    ctrl_stop_recording cs fs now true
      = ({ cs with recording_active := false }, fs, [.cmdStop]) := by
  unfold ctrl_stop_recording
  have h1 : ({ cs with recording_active := false }
      : CtrlState).current_recording_info = none := h
  rw [h1]
  simp

lemma handle_end_filtered (cs : CtrlState) (fs : FileSys) (now : Int)
    (tr : Bool) :
    handle_end_event cs fs now true tr = ctrl_stop_recording cs fs now true := by
  unfold handle_end_event
  simp

end RdsVma

namespace RdsVma

/-- C9: on every End or Timeout dispatch the controller issues `STOP` first;
an unfiltered end leaves the filesystem untouched, deletes nothing, and —
when a recording is tracked, the transcriber is available and the artifact
exists — hands the expected path to the transcriber (without a transcriber
nothing is handed over); a filtered end sleeps a grace second and deletes
the predicted artifact when present, otherwise falls back to the glob by
classification and date prefix restricted to files created within the last
30 seconds, deleting at most one file, and otherwise gives up leaving the
filesystem unchanged; with no tracked recording a filtered end only stops. -/
theorem claim_c9 :
    (∀ (cs : CtrlState) (fs : FileSys) (now : Int) (filt tr : Bool),
      (handle_end_event cs fs now filt tr).2.2.head?
        = some CtrlAction.cmdStop) ∧
    (∀ (cs : CtrlState) (fs : FileSys) (now : Int) (tr : Bool),
      (handle_end_event cs fs now false tr).2.1 = fs ∧
      ∀ p : String,
        CtrlAction.deletedFile p ∉ (handle_end_event cs fs now false tr).2.2) ∧
    (∀ (cs : CtrlState) (fs : FileSys) (now : Int) (info : RecInfo),
      cs.current_recording_info = some info →
      fsExists fs info.expected_filename = true →
      (handle_end_event cs fs now false true).2.2
        = [.cmdStop, .transcribe info.expected_filename]) ∧
    (∀ (cs : CtrlState) (fs : FileSys) (now : Int),
      (handle_end_event cs fs now false false).2.2 = [.cmdStop]) ∧
    (∀ (cs : CtrlState) (fs : FileSys) (now : Int) (tr : Bool)
        (info : RecInfo),
      cs.current_recording_info = some info →
      fsExists fs info.expected_filename = true →
      handle_end_event cs fs now true tr
        = ({ recording_active := false, current_recording_info := none },
           fsRemove fs info.expected_filename,
           [.cmdStop, .sleepGrace, .deletedFile info.expected_filename])) ∧
    (∀ (cs : CtrlState) (fs : FileSys) (now : Int) (tr : Bool)
        (info : RecInfo) (f : String × Int),
      cs.current_recording_info = some info →
      fsExists fs info.expected_filename = false →
      (fs.filter
          (fun g => matchesGlob info.event_type info.timestamp g.1)).find?
            (fun g => decide (now - 30000 < g.2)) = some f →
      handle_end_event cs fs now true tr
        = ({ recording_active := false, current_recording_info := none },
           fsRemove fs f.1, [.cmdStop, .sleepGrace, .deletedFile f.1]) ∧
      matchesGlob info.event_type info.timestamp f.1 = true ∧
      now - 30000 < f.2 ∧
      fs.length ≤ (fsRemove fs f.1).length + 1) ∧
    (∀ (cs : CtrlState) (fs : FileSys) (now : Int) (tr : Bool)
        (info : RecInfo),
      cs.current_recording_info = some info →
      fsExists fs info.expected_filename = false →
      (fs.filter
          (fun g => matchesGlob info.event_type info.timestamp g.1)).find?
            (fun g => decide (now - 30000 < g.2)) = none →
      handle_end_event cs fs now true tr
        = ({ cs with recording_active := false }, fs,
           [.cmdStop, .sleepGrace])) ∧
    (∀ (cs : CtrlState) (fs : FileSys) (now : Int) (tr : Bool),
      cs.current_recording_info = none →
      handle_end_event cs fs now true tr
        = ({ cs with recording_active := false }, fs, [.cmdStop])) := by
  refine ⟨?_, ?_, ?_, ?_, ?_, ?_, ?_, ?_⟩
  · intro cs fs now filt tr
    cases filt
    · rw [handle_end_unfiltered]
      cases h : cs.current_recording_info with
      | none => rfl
      | some info =>
          dsimp only
          split <;> rfl
    · rw [handle_end_filtered]
      unfold ctrl_stop_recording
      dsimp only
      split <;> rfl
  · intro cs fs now tr
    rw [handle_end_unfiltered]
    cases h : cs.current_recording_info with
    | none => exact ⟨rfl, by intro p; simp⟩
    | some info =>
        dsimp only
        split
        · exact ⟨rfl, by intro p; simp⟩
        · exact ⟨rfl, by intro p; simp⟩
  · intro cs fs now info h hex
    rw [handle_end_unfiltered]
    rw [h]
    dsimp only
    rw [hex]
    simp
  · intro cs fs now
    rw [handle_end_unfiltered]
    cases h : cs.current_recording_info with
    | none => rfl
    | some info => simp
  · intro cs fs now tr info h hex
    rw [handle_end_filtered, ctrl_stop_delete_tracked cs fs now info h]
    have h1 : ({ cs with recording_active := false }
        : CtrlState).current_recording_info = some info := h
    rw [delete_predicted _ fs now info h1 hex]
    rfl
  · intro cs fs now tr info f h hex hfind
    have h1 : ({ cs with recording_active := false }
        : CtrlState).current_recording_info = some info := h
    have hmem := List.mem_of_find?_eq_some hfind
    have hglob : matchesGlob info.event_type info.timestamp f.1 = true :=
      (List.mem_filter.mp hmem).2
    have hp := List.find?_some hfind
    have hcut : now - 30000 < f.2 := of_decide_eq_true hp
    refine ⟨?_, hglob, hcut, length_le_length_eraseP_succ _ fs⟩
    rw [handle_end_filtered, ctrl_stop_delete_tracked cs fs now info h,
      delete_fallback_hit _ fs now info f h1 hex hfind]
    rfl
  · intro cs fs now tr info h hex hfind
    have h1 : ({ cs with recording_active := false }
        : CtrlState).current_recording_info = some info := h
    rw [handle_end_filtered, ctrl_stop_delete_tracked cs fs now info h,
      delete_fallback_miss _ fs now info h1 hex hfind]
    rfl
  · intro cs fs now tr h
    rw [handle_end_filtered, ctrl_stop_delete_untracked cs fs now h]

end RdsVma

namespace RdsVma

/-- Concrete instantiation of `claim_c9`: a filtered end with the predicted
artifact on disk stops, sleeps and deletes exactly that file; a filtered end
with no tracked recording only stops. -/
theorem claim_c9_witness :
    (handle_end_event
        { recording_active := true,
          current_recording_info := some
            { event_type := "traffic_start", timestamp := "20250101_120000",
              expected_filename :=
                get_audio_filename "traffic_start" "20250101_120000",
              start_time := 0 } }
        [(get_audio_filename "traffic_start" "20250101_120000", (100 : Int))]
        5000 true true
      = ({ recording_active := false, current_recording_info := none },
         fsRemove
           [(get_audio_filename "traffic_start" "20250101_120000",
             (100 : Int))]
           (get_audio_filename "traffic_start" "20250101_120000"),
         [.cmdStop, .sleepGrace,
          .deletedFile
            (get_audio_filename "traffic_start" "20250101_120000")])) ∧
    (handle_end_event ctrlInit [] 0 true false
      = ({ ctrlInit with recording_active := false }, [], [.cmdStop])) :=
  ⟨claim_c9.2.2.2.2.1
      { recording_active := true,
        current_recording_info := some
          { event_type := "traffic_start", timestamp := "20250101_120000",
            expected_filename :=
              get_audio_filename "traffic_start" "20250101_120000",
            start_time := 0 } }
      [(get_audio_filename "traffic_start" "20250101_120000", (100 : Int))]
      5000 true
      { event_type := "traffic_start", timestamp := "20250101_120000",
        expected_filename :=
          get_audio_filename "traffic_start" "20250101_120000",
        start_time := 0 }
      rfl (by decide),
   claim_c9.2.2.2.2.2.2.2 ctrlInit [] 0 false rfl⟩

end RdsVma
